import Mathlib

/-!
Shallow embedding of the Cosmic Drift frame-simulation engine (src/game.js).

Modelling conventions:
* JS numbers are modelled as real numbers; `Math.sqrt(dx*dx+dy*dy)` and
  `Math.hypot` become `hypot2` (built on `Real.sqrt`).
* JS division is modelled by real-number division.  The one spot where the
  source can divide zero by zero (the black-hole gravity loop, lines
  757-775) additionally gets an IEEE-faithful model (`jsDiv` /
  `gravityKick`) in which `0/0` is `none` (JS `NaN`).
* DOM access, rendering, explosion particles, trail particles, background
  stars, bullet trails and the heading angle `player.angle` have no
  gameplay effect and are omitted; every field and branch with gameplay
  effect is kept.
* `Math.random()` is modelled by a draw stream `rng : Nat -> Real` together
  with an index `rngIdx` carried in the state; each call reads the next
  value of the stream (`randomDraw`).
* The early `return` taken in `update` when `takeDamage` reports death is
  modelled with `Except`: `.error s` means the terminal transition fired
  (via `gameOver`) and the remainder of the tick was skipped.
-/

namespace CosmicDrift

inductive CollectibleType where
  | energy
  | points
  | multiplier
  | shield
deriving DecidableEq

noncomputable section

/-- `Math.sqrt(dx*dx + dy*dy)` / `Math.hypot(dx, dy)` from the source. -/
def hypot2 (dx dy : ℝ) : ℝ := Real.sqrt (dx * dx + dy * dy)

/-- The player object created by `createPlayer` (src/game.js lines 322-346).
`angle` and the colour fields are render-only and omitted. -/
@[ext] structure Player where
  x : ℝ
  y : ℝ
  vx : ℝ
  vy : ℝ
  radius : ℝ
  thrust : ℝ
  maxSpeed : ℝ
  friction : ℝ
  boosting : Bool
  invincible : Bool
  invincibleTimer : ℝ

/-- A collectible (src/game.js lines 423-431). -/
@[ext] structure Collectible where
  x : ℝ
  y : ℝ
  vx : ℝ
  vy : ℝ
  radius : ℝ
  type : CollectibleType
  pulse : ℝ
  lifetime : ℝ

/-- A black hole / gravity-well hazard (src/game.js lines 449-459). -/
@[ext] structure BlackHole where
  x : ℝ
  y : ℝ
  radius : ℝ
  pullRadius : ℝ
  strength : ℝ
  rotation : ℝ
  lifetime : ℝ
  maxLifetime : ℝ
  shootTimer : ℝ
  shootInterval : ℝ

/-- A hazard-fired bullet (src/game.js lines 471-479); `trail` is
render-only and omitted. -/
@[ext] structure Bullet where
  x : ℝ
  y : ℝ
  vx : ℝ
  vy : ℝ
  radius : ℝ
  life : ℝ

/-- A ship class from `this.shipTypes` (src/game.js lines 62-93); colour
fields are render-only and omitted. -/
@[ext] structure ShipType where
  maxSpeed : ℝ
  thrust : ℝ
  friction : ℝ
  maxHP : ℤ
  price : ℤ

/-- The mutable fields of the `Game` object that carry gameplay state
(src/game.js constructor, lines 24-102).  `keys` is reduced to the only
key the simulation reads (`Space`). -/
@[ext] structure GameState where
  isRunning : Bool
  isPaused : Bool
  score : ℤ
  level : ℤ
  multiplier : ℝ
  energy : ℝ
  hp : ℤ
  maxHP : ℤ
  highScore : ℤ
  coins : ℤ
  sessionCoins : ℤ
  mouseX : ℝ
  mouseY : ℝ
  mouseDown : Bool
  keySpace : Bool
  player : Option Player
  collectibles : List Collectible
  blackHoles : List BlackHole
  bullets : List Bullet
  botEnabled : Bool
  lastTime : ℝ
  deltaTime : ℝ
  spawnTimer : ℝ
  difficultyTimer : ℝ
  canvasWidth : ℝ
  canvasHeight : ℝ
  rng : ℕ → ℝ
  rngIdx : ℕ

/-- One call of `Math.random()`. -/
def randomDraw (s : GameState) : ℝ × GameState :=
  (s.rng s.rngIdx, { s with rngIdx := s.rngIdx + 1 })

/-- `takeDamage` (src/game.js lines 363-388).  Returns `true` when the
player is dead; heart-display animation and the explosion are render-only.
The source dereferences `this.player`; `takeDamage` is only called with a
player present, the `none` branch is unreachable. -/
def takeDamage (s : GameState) : Bool × GameState :=
  match s.player with
  | none => (false, s)
  | some p =>
    if p.invincible then (false, s)
    else
      let s := { s with hp := s.hp - 1 }
      if s.hp ≤ 0 then (true, s)
      else
        (false,
          { s with player := some { p with invincible := true, invincibleTimer := 120 } })

/-- `gameOver` (src/game.js lines 669-705): stops the run and records a new
high score; everything else there is screen/DOM work. -/
def gameOver (s : GameState) : GameState :=
  let s := { s with isRunning := false }
  if s.score > s.highScore then { s with highScore := s.score } else s

/-- `addCoins` (src/game.js lines 241-251); persistence and HUD display are
out of scope. -/
def addCoins (amount : ℤ) (s : GameState) : GameState :=
  { s with coins := s.coins + amount, sessionCoins := s.sessionCoins + amount }

/-- `collectItem` (src/game.js lines 971-1002).  Explosions are
render-only.  The `shield` case dereferences `this.player`; it is only
reached with a player present. -/
def collectItem (item : Collectible) (s : GameState) : GameState :=
  let basePoints : ℝ := 100
  match item.type with
  | .energy =>
      { s with energy := min 100 (s.energy + 30),
               score := s.score + ⌊basePoints * 0.5 * s.multiplier⌋ }
  | .points =>
      let s := { s with score := s.score + ⌊basePoints * s.multiplier⌋ }
      let (u, s) := randomDraw s
      let coinsEarned := ⌊u * 3⌋ + 1
      addCoins coinsEarned s
  | .multiplier =>
      let m := min (s.multiplier + 0.5) 10
      { s with multiplier := m, score := s.score + ⌊basePoints * 0.75 * m⌋ }
  | .shield =>
      match s.player with
      | some p =>
          { s with player := some { p with invincible := true, invincibleTimer := 180 },
                   score := s.score + ⌊basePoints * 0.5 * s.multiplier⌋ }
      | none => { s with score := s.score + ⌊basePoints * 0.5 * s.multiplier⌋ }

/-- The cumulative-threshold loop of `spawnCollectible` (src/game.js lines
406-412): walk the weight table, pick the first entry whose weight exceeds
the remaining draw, else subtract and continue. -/
def selectCollectibleTypeLoop : List (CollectibleType × ℝ) → ℝ → Option CollectibleType
  | [], _ => none
  | (t, w) :: rest, r => if r < w then some t else selectCollectibleTypeLoop rest (r - w)

/-- `types` paired with `weights` (src/game.js lines 401-402). -/
def collectibleWeights : List (CollectibleType × ℝ) :=
  [(.energy, 0.4), (.points, 0.35), (.multiplier, 0.15), (.shield, 0.1)]

/-- Category selection in `spawnCollectible` (src/game.js lines 401-412):
`let type = types[0]` is the default when the loop never breaks. -/
def selectCollectibleType (u : ℝ) : CollectibleType :=
  (selectCollectibleTypeLoop collectibleWeights u).getD .energy

/-- IEEE-faithful JS division for the gravity loop: `0/0` (and `x/0`) is
not a finite real (JS `NaN` / `Infinity`), modelled as `none`. -/
def jsDiv (a b : ℝ) : Option ℝ := if b = 0 then none else some (a / b)

/-- IEEE-faithful model of one black-hole gravity application to the
player's velocity (src/game.js lines 757-766): `none` means the velocity
became non-finite (NaN). -/
def gravityKick (dt : ℝ) (p : Player) (hole : BlackHole) : Option (ℝ × ℝ) :=
  let dx := hole.x - p.x
  let dy := hole.y - p.y
  let dist := hypot2 dx dy
  if dist < hole.pullRadius then
    let force := hole.strength * (1 - dist / hole.pullRadius) * dt
    match jsDiv dx dist, jsDiv dy dist with
    | some ux, some uy => some (p.vx + ux * force, p.vy + uy * force)
    | _, _ => none
  else some (p.vx, p.vy)

/-- `dt = this.deltaTime / 16.67` (src/game.js line 727). -/
def normalizeDt (deltaTime : ℝ) : ℝ := deltaTime / 16.67

/-- `Math.min(now - this.lastTime, 50)` (src/game.js line 1313), the
spiral-of-death clamp on raw elapsed milliseconds. -/
def computeDelta (now lastTime : ℝ) : ℝ := min (now - lastTime) 50

/-- Mouse-following acceleration, boost handling and energy drain/regen
(src/game.js lines 729-754).  Returns the state (with updated energy) and
the updated player. -/
def applyInput (dt : ℝ) (s : GameState) (p : Player) : GameState × Player :=
  let dx := s.mouseX - p.x
  let dy := s.mouseY - p.y
  let distToMouse := hypot2 dx dy
  let ax := if distToMouse > 5 then dx / distToMouse else 0
  let ay := if distToMouse > 5 then dy / distToMouse else 0
  let boosting := (s.mouseDown || s.keySpace) && decide (s.energy > 0)
  let energy' :=
    if boosting then max 0 (s.energy - 0.5 * dt) else min 100 (s.energy + 0.1 * dt)
  let thrustMult : ℝ := if boosting then 2.5 else 1
  let accelFactor := min (distToMouse / 100) 1 * p.thrust * thrustMult
  ({ s with energy := energy' },
   { p with boosting := boosting,
            vx := p.vx + ax * accelFactor * dt,
            vy := p.vy + ay * accelFactor * dt })

/-- One black-hole gravity application with real-number division (the
velocity part of src/game.js lines 757-766); `gravityKick` above is the
IEEE-faithful version of the same lines. -/
def applyHoleForce (dt : ℝ) (p : Player) (hole : BlackHole) : Player :=
  let dx := hole.x - p.x
  let dy := hole.y - p.y
  let dist := hypot2 dx dy
  if dist < hole.pullRadius then
    let force := hole.strength * (1 - dist / hole.pullRadius) * dt
    { p with vx := p.vx + dx / dist * force, vy := p.vy + dy / dist * force }
  else p

/-- The forward `for (const hole of this.blackHoles)` loop (src/game.js
lines 757-775): gravity pull, then event-horizon contact damage; a fatal
hit runs `gameOver` and aborts the tick (`.error`). -/
def processHoles (dt : ℝ) : List BlackHole → GameState → Except GameState GameState
  | [], s => .ok s
  | hole :: rest, s =>
    match s.player with
    | none => .ok s
    | some p =>
      let dist := hypot2 (hole.x - p.x) (hole.y - p.y)
      let p' := applyHoleForce dt p hole
      let s' := { s with player := some p' }
      if dist < hole.radius ∧ p'.invincible = false then
        let r := takeDamage s'
        if r.1 then .error (gameOver r.2) else processHoles dt rest r.2
      else processHoles dt rest s'

/-- Friction, speed clamp, integration, torus wrap and the invincibility
timer (src/game.js lines 777-812); the heading-angle update (794-797) is
render-only and omitted. -/
def applyFrictionClampMove (dt w h : ℝ) (p : Player) : Player :=
  let p := { p with vx := p.vx * p.friction, vy := p.vy * p.friction }
  let speed := hypot2 p.vx p.vy
  let maxSpeed := if p.boosting then p.maxSpeed * 1.5 else p.maxSpeed
  let p := if speed > maxSpeed then
      { p with vx := p.vx / speed * maxSpeed, vy := p.vy / speed * maxSpeed }
    else p
  let p := { p with x := p.x + p.vx * dt, y := p.y + p.vy * dt }
  let m := p.radius
  let p := if p.x < -m then { p with x := w + m } else p
  let p := if p.x > w + m then { p with x := -m } else p
  let p := if p.y < -m then { p with y := h + m } else p
  let p := if p.y > h + m then { p with y := -m } else p
  if p.invincible then
    let p := { p with invincibleTimer := p.invincibleTimer - dt }
    if p.invincibleTimer ≤ 0 then { p with invincible := false } else p
  else p

/-- Per-collectible motion/ageing (src/game.js lines 828-831). -/
def collectibleMove (dt : ℝ) (c : Collectible) : Collectible :=
  { c with x := c.x + c.vx * dt, y := c.y + c.vy * dt,
           pulse := c.pulse + 0.1 * dt, lifetime := c.lifetime + dt }

/-- The backward collectible loop (src/game.js lines 826-850), written as
recursion over the reversed array: `rev` holds the not-yet-visited lower
indices in reverse, `kept` the surviving higher indices in array order. -/
def processCollectiblesRev (dt : ℝ) :
    List Collectible → GameState → List Collectible → GameState × List Collectible
  | [], s, kept => (s, kept)
  | c :: rev, s, kept =>
    let c := collectibleMove dt c
    match s.player with
    | some p =>
      if hypot2 (p.x - c.x) (p.y - c.y) < p.radius + c.radius then
        processCollectiblesRev dt rev (collectItem c s) kept
      else if c.x < -50 ∨ c.x > s.canvasWidth + 50 ∨ c.y < -50 ∨ c.y > s.canvasHeight + 50
          ∨ c.lifetime > 600 then
        processCollectiblesRev dt rev s kept
      else processCollectiblesRev dt rev s (c :: kept)
    | none =>
      if c.x < -50 ∨ c.x > s.canvasWidth + 50 ∨ c.y < -50 ∨ c.y > s.canvasHeight + 50
          ∨ c.lifetime > 600 then
        processCollectiblesRev dt rev s kept
      else processCollectiblesRev dt rev s (c :: kept)

/-- Wrapper installing the surviving collectibles (src/game.js lines
826-850). -/
def processCollectibles (dt : ℝ) (s : GameState) : GameState :=
  let r := processCollectiblesRev dt s.collectibles.reverse s []
  { r.1 with collectibles := r.2 }

/-- `spawnBullet` (src/game.js lines 462-480); aims at the player's current
position.  `trail` is render-only and omitted. -/
def spawnBullet (hole : BlackHole) (s : GameState) : GameState :=
  match s.player with
  | none => s
  | some p =>
    let dx := p.x - hole.x
    let dy := p.y - hole.y
    let dist := hypot2 dx dy
    let speed := 4 + (s.level : ℝ) * 0.3
    { s with bullets := s.bullets ++
        [{ x := hole.x, y := hole.y, vx := dx / dist * speed, vy := dy / dist * speed,
           radius := 6, life := 300 }] }

/-- The backward black-hole lifecycle loop (src/game.js lines 853-870):
rotation/age/shoot-timer accumulation, bullet emission, expiry. -/
def processHolesLifecycleRev (dt : ℝ) :
    List BlackHole → GameState → List BlackHole → GameState × List BlackHole
  | [], s, kept => (s, kept)
  | hole :: rev, s, kept =>
    let hole := { hole with rotation := hole.rotation + 0.02 * dt,
                            lifetime := hole.lifetime + dt,
                            shootTimer := hole.shootTimer + dt }
    let step :=
      if hole.shootTimer ≥ hole.shootInterval then
        let r := randomDraw s
        let interval := max 40 (100 + r.1 * 80 - (r.2.level : ℝ) * 5)
        let hole := { hole with shootTimer := 0, shootInterval := interval }
        (hole, spawnBullet hole r.2)
      else (hole, s)
    if step.1.lifetime > step.1.maxLifetime then
      processHolesLifecycleRev dt rev step.2 kept
    else processHolesLifecycleRev dt rev step.2 (step.1 :: kept)

/-- Wrapper installing the surviving black holes (src/game.js lines
853-870). -/
def processHolesLifecycle (dt : ℝ) (s : GameState) : GameState :=
  let r := processHolesLifecycleRev dt s.blackHoles.reverse s []
  { r.1 with blackHoles := r.2 }

/-- The backward bullet loop (src/game.js lines 873-907): move, age,
player contact (damage, bullet removed, possible game over aborting the
tick), expiry.  On `.error` the remaining lower-indexed bullets are left
untouched, exactly as the early `return` leaves the spliced array. -/
def processBulletsRev (dt : ℝ) :
    List Bullet → GameState → List Bullet → Except GameState (GameState × List Bullet)
  | [], s, kept => .ok (s, kept)
  | b :: rev, s, kept =>
    let b := { b with x := b.x + b.vx * dt, y := b.y + b.vy * dt, life := b.life - dt }
    match s.player with
    | some p =>
      if hypot2 (p.x - b.x) (p.y - b.y) < p.radius + b.radius ∧ p.invincible = false then
        let r := takeDamage s
        if r.1 then .error (gameOver { r.2 with bullets := rev.reverse ++ kept })
        else processBulletsRev dt rev r.2 kept
      else if b.life ≤ 0 ∨ b.x < -50 ∨ b.x > s.canvasWidth + 50
          ∨ b.y < -50 ∨ b.y > s.canvasHeight + 50 then
        processBulletsRev dt rev s kept
      else processBulletsRev dt rev s (b :: kept)
    | none =>
      if b.life ≤ 0 ∨ b.x < -50 ∨ b.x > s.canvasWidth + 50
          ∨ b.y < -50 ∨ b.y > s.canvasHeight + 50 then
        processBulletsRev dt rev s kept
      else processBulletsRev dt rev s (b :: kept)

/-- Wrapper installing the surviving bullets (src/game.js lines 873-907). -/
def processBullets (dt : ℝ) (s : GameState) : Except GameState GameState :=
  match processBulletsRev dt s.bullets.reverse s [] with
  | .error e => .error e
  | .ok r => .ok { r.1 with bullets := r.2 }

/-- `spawnCollectible` (src/game.js lines 390-432): an edge point, a
weighted category, a target in the central 60 percent region, speed in
[1,3). -/
def spawnCollectible (s : GameState) : GameState :=
  let r1 := randomDraw s
  let edge := ⌊r1.1 * 4⌋
  let r2 := randomDraw r1.2
  let s := r2.2
  let w := s.canvasWidth
  let h := s.canvasHeight
  let pos : ℝ × ℝ :=
    if edge = 0 then (r2.1 * w, -30)
    else if edge = 1 then (w + 30, r2.1 * h)
    else if edge = 2 then (r2.1 * w, h + 30)
    else (-30, r2.1 * h)
  let r3 := randomDraw s
  let ctype := selectCollectibleType r3.1
  let r4 := randomDraw r3.2
  let r5 := randomDraw r4.2
  let targetX := w * (0.2 + r4.1 * 0.6)
  let targetY := h * (0.2 + r5.1 * 0.6)
  let dx := targetX - pos.1
  let dy := targetY - pos.2
  let dist := hypot2 dx dy
  let r6 := randomDraw r5.2
  let speed := 1 + r6.1 * 2
  { r6.2 with collectibles := r6.2.collectibles ++
      [{ x := pos.1, y := pos.2, vx := dx / dist * speed, vy := dy / dist * speed,
         radius := 12, type := ctype, pulse := 0, lifetime := 0 }] }

/-- The do-while rejection sampling of `spawnBlackHole` (src/game.js lines
437-447): redraw while the point is within 200 of the player, giving up
after 50 attempts (fuel counts the remaining redraws). -/
def pickHolePosition : ℕ → GameState → ℝ × ℝ × GameState
  | 0, s =>
    let r1 := randomDraw s
    let r2 := randomDraw r1.2
    (100 + r1.1 * (s.canvasWidth - 100 * 2), 100 + r2.1 * (s.canvasHeight - 100 * 2), r2.2)
  | f + 1, s =>
    let r1 := randomDraw s
    let r2 := randomDraw r1.2
    let x := 100 + r1.1 * (s.canvasWidth - 100 * 2)
    let y := 100 + r2.1 * (s.canvasHeight - 100 * 2)
    match r2.2.player with
    | some p =>
      if hypot2 (x - p.x) (y - p.y) < 200 then pickHolePosition f r2.2 else (x, y, r2.2)
    | none => (x, y, r2.2)

/-- `spawnBlackHole` (src/game.js lines 434-460). -/
def spawnBlackHole (s : GameState) : GameState :=
  let pr := pickHolePosition 49 s
  let r1 := randomDraw pr.2.2
  let r2 := randomDraw r1.2
  let r3 := randomDraw r2.2
  let r4 := randomDraw r3.2
  { r4.2 with blackHoles := r4.2.blackHoles ++
      [{ x := pr.1, y := pr.2.1,
         radius := 30 + r1.1 * 20,
         pullRadius := 150 + r2.1 * 100,
         strength := 0.3 + (r4.2.level : ℝ) * 0.05,
         rotation := 0, lifetime := 0,
         maxLifetime := 500 + r3.1 * 300,
         shootTimer := 0,
         shootInterval := 120 + r4.1 * 60 }] }

/-- The 60-tick collectible spawn with its level-scaled second spawn
(src/game.js lines 938-945). -/
def collectibleSpawnStep (s : GameState) : GameState :=
  if s.spawnTimer > 60 then
    let s := spawnCollectible { s with spawnTimer := 0 }
    let r := randomDraw s
    if r.1 < 0.3 + (r.2.level : ℝ) * 0.05 then spawnCollectible r.2 else r.2
  else s

/-- The capped probabilistic black-hole spawn (src/game.js lines 947-952). -/
def holeSpawnStep (s : GameState) : GameState :=
  if (s.blackHoles.length : ℤ) < min (3 + s.level / 2) 8 then
    let r := randomDraw s
    if r.1 < 0.005 * (r.2.level : ℝ) then spawnBlackHole r.2 else r.2
  else s

/-- Spawn scheduling (src/game.js lines 934-952): timer accumulation, the
collectible spawn check, the black-hole spawn check. -/
def applySpawning (dt : ℝ) (s : GameState) : GameState :=
  holeSpawnStep (collectibleSpawnStep
    { s with spawnTimer := s.spawnTimer + dt, difficultyTimer := s.difficultyTimer + dt })

/-- Difficulty scheduling (src/game.js lines 954-962): every 1800
accumulated ticks bump the level and the (capped) multiplier. -/
def applyDifficulty (s : GameState) : GameState :=
  if s.difficultyTimer > 1800 then
    { s with difficultyTimer := 0, level := s.level + 1,
             multiplier := min (s.multiplier + 0.5) 10 }
  else s

/-- Danger score of a collectible for the bot (src/game.js lines 504-518). -/
def botDanger (s : GameState) (c : Collectible) : ℝ :=
  let fromHoles := s.blackHoles.foldl (fun acc hole =>
    let holeDist := hypot2 (c.x - hole.x) (c.y - hole.y)
    if holeDist < hole.pullRadius then acc + (hole.pullRadius - holeDist) * 2 else acc) 0
  s.bullets.foldl (fun acc b =>
    if hypot2 (c.x - b.x) (c.y - b.y) < 80 then acc + 100 else acc) fromHoles

/-- Type-priority bonus for the bot (src/game.js lines 521-525). -/
def botTypeBonus (s : GameState) (c : Collectible) : ℝ :=
  if c.type = .shield then 200
  else if c.type = .multiplier then 150
  else if c.type = .energy ∧ s.energy < 50 then 180
  else if c.type = .points then 100
  else 0

/-- Best-target scan of the bot (src/game.js lines 494-533); the `none`
start models `bestScore = -Infinity`, so the first collectible always
wins against it. -/
def botBestCollectible (s : GameState) (p : Player) : Option (Collectible × ℝ) :=
  s.collectibles.foldl (fun best c =>
    let dist := hypot2 (c.x - p.x) (c.y - p.y)
    let score := botTypeBonus s c - dist - botDanger s c
    match best with
    | none => some (c, score)
    | some prev => if score > prev.2 then some (c, score) else some prev) none

/-- Evasion accumulation of the bot (src/game.js lines 536-565): repulsion
from black holes within 0.8 of their pull radius and bullets within 100. -/
def botEvasion (s : GameState) (p : Player) : ℝ × ℝ × Bool :=
  let acc := s.blackHoles.foldl (fun (acc : ℝ × ℝ × Bool) hole =>
    let dx := p.x - hole.x
    let dy := p.y - hole.y
    let dist := hypot2 dx dy
    if dist < hole.pullRadius * 0.8 then
      let urgency := 1 - dist / (hole.pullRadius * 0.8)
      (acc.1 + dx / dist * urgency * 2, acc.2.1 + dy / dist * urgency * 2, true)
    else acc) (0, 0, false)
  s.bullets.foldl (fun (acc : ℝ × ℝ × Bool) b =>
    let dx := p.x - b.x
    let dy := p.y - b.y
    let dist := hypot2 dx dy
    if dist < 100 then
      let urgency := 1 - dist / 100
      (acc.1 + dx / dist * urgency * 3, acc.2.1 + dy / dist * urgency * 3, true)
    else acc) acc

/-- The final clamp of the bot target to 50 units inside the screen
(src/game.js lines 596-597). -/
def clampTargetX (s : GameState) (x : ℝ) : ℝ := max 50 (min (s.canvasWidth - 50) x)

/-- Vertical counterpart of `clampTargetX` (src/game.js line 597). -/
def clampTargetY (s : GameState) (y : ℝ) : ℝ := max 50 (min (s.canvasHeight - 50) y)

/-- `updateBot` (src/game.js lines 491-598).  `now` stands for
`Date.now()` in the patrol branch. -/
def updateBot (now : ℝ) (s : GameState) : GameState :=
  if s.botEnabled = false then s else
  match s.player with
  | none => s
  | some p =>
    let best := botBestCollectible s p
    let ev := botEvasion s p
    let s :=
      if ev.2.2 then
        let evadeDist := hypot2 ev.1 ev.2.1
        let s :=
          if evadeDist > 0 then
            { s with mouseX := p.x + ev.1 / evadeDist * 200,
                     mouseY := p.y + ev.2.1 / evadeDist * 200 }
          else s
        { s with mouseDown := decide (s.energy > 20) }
      else
        match best with
        | some bc =>
          let distToTarget := hypot2 (bc.1.x - p.x) (bc.1.y - p.y)
          { s with mouseX := bc.1.x, mouseY := bc.1.y,
                   mouseDown := decide (distToTarget > 200 ∧ s.energy > 30) }
        | none =>
          { s with mouseX := s.canvasWidth / 2 + Real.sin (now * 0.001) * 200,
                   mouseY := s.canvasHeight / 2 + Real.cos (now * 0.001) * 150,
                   mouseDown := false }
    { s with mouseX := clampTargetX s s.mouseX, mouseY := clampTargetY s s.mouseY }

/-- Everything `update` (src/game.js lines 724-962) does before the bot
call at line 965: input/physics, gravity and event-horizon contact,
friction/clamp/move/wrap, the three entity loops, spawning and difficulty.
`.error e` is the fatal-damage early return, `e` the `gameOver` state.
Particle and trail updates (814-823, 909-932) and the HUD write (968) are
render-only and omitted. -/
def updateCore (s : GameState) : Except GameState GameState :=
  match s.player with
  | none => .ok s
  | some p =>
    let dt := normalizeDt s.deltaTime
    let ip := applyInput dt s p
    let s := { ip.1 with player := some ip.2 }
    match processHoles dt s.blackHoles s with
    | .error e => .error e
    | .ok s =>
      let s :=
        match s.player with
        | some p =>
          { s with player := some (applyFrictionClampMove dt s.canvasWidth s.canvasHeight p) }
        | none => s
      let s := processCollectibles dt s
      let s := processHolesLifecycle dt s
      match processBullets dt s with
      | .error e => .error e
      | .ok s => .ok (applyDifficulty (applySpawning dt s))

/-- The state `update` has built when control reaches the bot call at
line 965 (or the `gameOver` state when the tick aborted before it). -/
def preBot (s : GameState) : GameState :=
  match updateCore s with
  | .error e => e
  | .ok s' => s'

/-- One call of `update` (src/game.js lines 724-969).  The Boolean is
`true` exactly when the fatal-damage early return fired, in which case the
returned state is the `gameOver` state and the rest of the tick was
skipped (in particular `updateBot` did not run). -/
def update (now : ℝ) (s : GameState) : Bool × GameState :=
  match updateCore s with
  | .error e => (true, e)
  | .ok s' => (false, updateBot now s')

/-- One `gameLoop` invocation (src/game.js lines 1309-1320): stop when not
running or paused, clamp the elapsed time, run `update`; rendering and the
next-frame request are out of scope. -/
def gameLoopStep (now : ℝ) (s : GameState) : Bool × GameState :=
  if s.isRunning = false ∨ s.isPaused = true then (false, s)
  else update now { s with deltaTime := computeDelta now s.lastTime, lastTime := now }

/-- `createPlayer` (src/game.js lines 322-346). -/
def createPlayer (ship : ShipType) (s : GameState) : GameState :=
  { s with maxHP := ship.maxHP, hp := ship.maxHP,
           player := some
             { x := s.canvasWidth / 2, y := s.canvasHeight / 2, vx := 0, vy := 0,
               radius := 15, thrust := ship.thrust, maxSpeed := ship.maxSpeed,
               friction := ship.friction, boosting := false,
               invincible := false, invincibleTimer := 0 } }

/-- `startGame` (src/game.js lines 600-634): reset the run counters and
entity collections, create the player, reset the time baseline.  `ship` is
`this.shipTypes[this.selectedShip]`; screen/DOM work is out of scope. -/
def startGame (ship : ShipType) (now : ℝ) (s : GameState) : GameState :=
  let s := { s with isRunning := true, isPaused := false, score := 0, level := 1,
                    multiplier := 1, energy := 100,
                    collectibles := [], blackHoles := [], bullets := [],
                    spawnTimer := 0, difficultyTimer := 0, sessionCoins := 0 }
  let s := createPlayer ship s
  { s with lastTime := now }

/-! ### Predicates used to track how a tick's phases move the run counters -/

/-- Facts relating a state to the state a phase of `update` produced:
bounds on `energy` and `multiplier` are preserved, `score`/`multiplier`
do not decrease, `maxHP` is untouched, `hp` never grows, and the input
signal (mouse fields) is untouched (only `updateBot` writes it). -/
def ContractCore (s s' : GameState) : Prop :=
  (0 ≤ s.energy → 0 ≤ s'.energy) ∧
  (s.energy ≤ 100 → s'.energy ≤ 100) ∧
  (1 ≤ s.multiplier → 1 ≤ s'.multiplier) ∧
  (s.multiplier ≤ 10 → s'.multiplier ≤ 10) ∧
  (1 ≤ s.multiplier ∧ s.multiplier ≤ 10 →
      s.multiplier ≤ s'.multiplier ∧ s.score ≤ s'.score) ∧
  s'.maxHP = s.maxHP ∧
  s'.hp ≤ s.hp ∧
  s'.mouseX = s.mouseX ∧ s'.mouseY = s.mouseY ∧ s'.mouseDown = s.mouseDown

/-- `ContractCore` plus: a live player stays live (phases that damage the
player abort the tick instead when the hit is fatal). -/
def Contract (s s' : GameState) : Prop :=
  ContractCore s s' ∧ (1 ≤ s.hp → 1 ≤ s'.hp)

/-- `ContractCore` for the aborted (game-over) tick: the fatal hit took
`hp` from at least 1 to at least 0. -/
def ContractDead (s s' : GameState) : Prop :=
  ContractCore s s' ∧ (1 ≤ s.hp → 0 ≤ s'.hp)

/-- Scheduling fields no phase before `applySpawning` touches. -/
def SchedFields (s s' : GameState) : Prop :=
  s'.spawnTimer = s.spawnTimer ∧ s'.difficultyTimer = s.difficultyTimer ∧
  s'.level = s.level ∧ s'.isRunning = s.isRunning

/-- Scheduling fields after a fatal hit: untouched except that `gameOver`
stopped the run. -/
def DeadSched (s s' : GameState) : Prop :=
  s'.spawnTimer = s.spawnTimer ∧ s'.difficultyTimer = s.difficultyTimer ∧
  s'.level = s.level ∧ s'.isRunning = false

/-- Run counters and the input signal, all unchanged. -/
def CountersEq (s s' : GameState) : Prop :=
  s'.energy = s.energy ∧ s'.multiplier = s.multiplier ∧ s'.score = s.score ∧
  s'.hp = s.hp ∧ s'.maxHP = s.maxHP ∧
  s'.mouseX = s.mouseX ∧ s'.mouseY = s.mouseY ∧ s'.mouseDown = s.mouseDown

/-- All counters a phase leaves alone (phases that only move entities or
consume randomness). -/
def Untouched (s s' : GameState) : Prop :=
  CountersEq s s' ∧ SchedFields s s'

/-! ### Concrete states used to exercise the embedding -/

/-- A freshly created speeder-style player at (500, 300); `friction` is a
round value to keep concrete evaluations exact. -/
def samplePlayer : Player :=
  { x := 500, y := 300, vx := 0, vy := 0, radius := 15, thrust := 1, maxSpeed := 8,
    friction := 0.5, boosting := false, invincible := false, invincibleTimer := 0 }

/-- A live run on a 1000 by 600 screen with the cursor on the player. -/
def baseState : GameState :=
  { isRunning := true, isPaused := false, score := 0, level := 1, multiplier := 1,
    energy := 100, hp := 1, maxHP := 1, highScore := 0, coins := 0, sessionCoins := 0,
    mouseX := 500, mouseY := 300, mouseDown := false, keySpace := false,
    player := some samplePlayer, collectibles := [], blackHoles := [], bullets := [],
    botEnabled := false, lastTime := 0, deltaTime := 16.67, spawnTimer := 0,
    difficultyTimer := 0, canvasWidth := 1000, canvasHeight := 600,
    rng := fun _ => 0.5, rngIdx := 0 }

/-- `baseState` with the player inside a grace window. -/
def invulnState : GameState :=
  { baseState with player := some { samplePlayer with invincible := true, invincibleTimer := 60 } }

/-- A hazard 10 units from the player, close enough for a fatal hit. -/
def deathHole : BlackHole :=
  { x := 510, y := 300, radius := 30, pullRadius := 150, strength := 0.3,
    rotation := 0, lifetime := 0, maxLifetime := 600, shootTimer := 0, shootInterval := 120 }

/-- `baseState` (1 hp) facing `deathHole`: the tick is fatal. -/
def deathState : GameState := { baseState with blackHoles := [deathHole] }

/-- A hazard whose centre coincides exactly with the player position. -/
def zeroDistHole : BlackHole :=
  { x := 500, y := 300, radius := 30, pullRadius := 150, strength := 0.3,
    rotation := 0, lifetime := 0, maxLifetime := 600, shootTimer := 0, shootInterval := 120 }

/-- A hazard at distance 40 from the player: inside the sum of radii
(40 < 15 + 30) but outside both the event horizon (radius 30) and its own
pull radius (35). -/
def c3Hole : BlackHole :=
  { x := 540, y := 300, radius := 30, pullRadius := 35, strength := 0.3,
    rotation := 0, lifetime := 0, maxLifetime := 600, shootTimer := 0, shootInterval := 120 }

/-- `baseState` with the autonomous pilot enabled and no entities: the
pilot patrols, targeting (500, 450) at wall time 0. -/
def botState : GameState := { baseState with botEnabled := true }

/-- Pilot-enabled state for the C7 scenario: two hazards placed
symmetrically around the player (evasion vectors cancel exactly), one
points collectible at (800, 300), reserve energy 25, previous target
(700, 400). -/
def c7HoleA : BlackHole :=
  { x := 400, y := 300, radius := 30, pullRadius := 150, strength := 0.3,
    rotation := 0, lifetime := 0, maxLifetime := 600, shootTimer := 0, shootInterval := 120 }

/-- Mirror image of `c7HoleA` on the other side of the player. -/
def c7HoleB : BlackHole :=
  { x := 600, y := 300, radius := 30, pullRadius := 150, strength := 0.3,
    rotation := 0, lifetime := 0, maxLifetime := 600, shootTimer := 0, shootInterval := 120 }

/-- The best (and only) collectible in the C7 scenario. -/
def c7Collectible : Collectible :=
  { x := 800, y := 300, vx := 0, vy := 0, radius := 12, type := .points,
    pulse := 0, lifetime := 0 }

/-- The C7 scenario state. -/
def c7State : GameState :=
  { baseState with botEnabled := true, energy := 25, mouseX := 700, mouseY := 400,
                   blackHoles := [c7HoleA, c7HoleB], collectibles := [c7Collectible] }

/-- A points collectible used to exercise `collectItem`. -/
def pointsItem : Collectible :=
  { x := 0, y := 0, vx := 0, vy := 0, radius := 12, type := .points,
    pulse := 0, lifetime := 0 }

/-- `botState` with the previous tick's pilot target as the incoming input. -/
def botState2 : GameState := { botState with mouseY := 450 }

/-- A run that has already ended. -/
def stoppedState : GameState := { baseState with isRunning := false }

/-- The `speeder` entry of `this.shipTypes` (src/game.js lines 63-72). -/
def speederShip : ShipType :=
  { maxSpeed := 12, thrust := 1.2, friction := 0.85, maxHP := 1, price := 100 }

/-! ### Basic facts about the embedded primitives -/

lemma hypot2_zero : hypot2 0 0 = 0 := by
  simp [hypot2]

lemma hypot2_x (a : ℝ) : hypot2 a 0 = |a| := by
  simp [hypot2, Real.sqrt_mul_self_eq_abs]

lemma hypot2_y (a : ℝ) : hypot2 0 a = |a| := by
  simp [hypot2, Real.sqrt_mul_self_eq_abs]

lemma contractCore_rfl (s : GameState) : ContractCore s s := by
  unfold ContractCore
  refine ⟨fun h => h, fun h => h, fun h => h, fun h => h, fun h => ⟨le_refl _, le_refl _⟩,
    rfl, le_refl _, rfl, rfl, rfl⟩

lemma contractCore_trans {a b c : GameState} (h1 : ContractCore a b) (h2 : ContractCore b c) :
    ContractCore a c := by
  obtain ⟨e0, e1, m0, m1, mono, mh, hp, mx, my, md⟩ := h1
  obtain ⟨e0', e1', m0', m1', mono', mh', hp', mx', my', md'⟩ := h2
  refine ⟨fun h => e0' (e0 h), fun h => e1' (e1 h), fun h => m0' (m0 h), fun h => m1' (m1 h),
    ?_, mh'.trans mh, hp'.trans hp, mx'.trans mx, my'.trans my, md'.trans md⟩
  rintro ⟨ha, hb⟩
  obtain ⟨p1, p2⟩ := mono ⟨ha, hb⟩
  obtain ⟨q1, q2⟩ := mono' ⟨m0 ha, m1 hb⟩
  exact ⟨p1.trans q1, p2.trans q2⟩

lemma contract_rfl (s : GameState) : Contract s s := ⟨contractCore_rfl s, fun h => h⟩

lemma contract_trans {a b c : GameState} (h1 : Contract a b) (h2 : Contract b c) :
    Contract a c :=
  ⟨contractCore_trans h1.1 h2.1, fun h => h2.2 (h1.2 h)⟩

lemma contract_dead_trans {a b c : GameState} (h1 : Contract a b) (h2 : ContractDead b c) :
    ContractDead a c :=
  ⟨contractCore_trans h1.1 h2.1, fun h => h2.2 (h1.2 h)⟩

lemma sched_rfl (s : GameState) : SchedFields s s := ⟨rfl, rfl, rfl, rfl⟩

lemma sched_trans {a b c : GameState} (h1 : SchedFields a b) (h2 : SchedFields b c) :
    SchedFields a c :=
  ⟨h2.1.trans h1.1, h2.2.1.trans h1.2.1, h2.2.2.1.trans h1.2.2.1, h2.2.2.2.trans h1.2.2.2⟩

lemma sched_dead_trans {a b c : GameState} (h1 : SchedFields a b) (h2 : DeadSched b c) :
    DeadSched a c :=
  ⟨h2.1.trans h1.1, h2.2.1.trans h1.2.1, h2.2.2.1.trans h1.2.2.1, h2.2.2.2⟩

lemma contract_of_eqs {s s' : GameState}
    (he : s'.energy = s.energy) (hm : s'.multiplier = s.multiplier)
    (hsc : s.score ≤ s'.score) (hmh : s'.maxHP = s.maxHP) (hhp : s'.hp ≤ s.hp)
    (hhp1 : 1 ≤ s.hp → 1 ≤ s'.hp) (hmx : s'.mouseX = s.mouseX)
    (hmy : s'.mouseY = s.mouseY) (hmd : s'.mouseDown = s.mouseDown) :
    Contract s s' := by
  refine ⟨⟨?_, ?_, ?_, ?_, ?_, hmh, hhp, hmx, hmy, hmd⟩, hhp1⟩
  · intro h; rw [he]; exact h
  · intro h; rw [he]; exact h
  · intro h; rw [hm]; exact h
  · intro h; rw [hm]; exact h
  · intro _; exact ⟨le_of_eq hm.symm, hsc⟩

lemma contract_dead_of_eqs {s s' : GameState}
    (he : s'.energy = s.energy) (hm : s'.multiplier = s.multiplier)
    (hsc : s.score ≤ s'.score) (hmh : s'.maxHP = s.maxHP) (hhp : s'.hp ≤ s.hp)
    (hhp0 : 1 ≤ s.hp → 0 ≤ s'.hp) (hmx : s'.mouseX = s.mouseX)
    (hmy : s'.mouseY = s.mouseY) (hmd : s'.mouseDown = s.mouseDown) :
    ContractDead s s' := by
  refine ⟨⟨?_, ?_, ?_, ?_, ?_, hmh, hhp, hmx, hmy, hmd⟩, hhp0⟩
  · intro h; rw [he]; exact h
  · intro h; rw [he]; exact h
  · intro h; rw [hm]; exact h
  · intro h; rw [hm]; exact h
  · intro _; exact ⟨le_of_eq hm.symm, hsc⟩

lemma countersEq_rfl (s : GameState) : CountersEq s s :=
  ⟨rfl, rfl, rfl, rfl, rfl, rfl, rfl, rfl⟩

lemma countersEq_trans {a b c : GameState} (h1 : CountersEq a b) (h2 : CountersEq b c) :
    CountersEq a c := by
  obtain ⟨e, m, sc, hp, mh, mx, my, md⟩ := h1
  obtain ⟨e', m', sc', hp', mh', mx', my', md'⟩ := h2
  exact ⟨e'.trans e, m'.trans m, sc'.trans sc, hp'.trans hp, mh'.trans mh,
    mx'.trans mx, my'.trans my, md'.trans md⟩

lemma countersEq_contract {a b : GameState} (h : CountersEq a b) : Contract a b := by
  obtain ⟨e, m, sc, hp, mh, mx, my, md⟩ := h
  exact contract_of_eqs e m (le_of_eq sc.symm) mh (le_of_eq hp) (fun h' => by rw [hp]; exact h')
    mx my md

lemma contract_dead_counters {s t u : GameState} (h1 : ContractDead s t)
    (h2 : CountersEq t u) : ContractDead s u := by
  refine ⟨contractCore_trans h1.1 (countersEq_contract h2).1, fun h => ?_⟩
  rw [h2.2.2.2.1]
  exact h1.2 h

lemma untouched_rfl (s : GameState) : Untouched s s :=
  ⟨countersEq_rfl s, sched_rfl s⟩

lemma untouched_trans {a b c : GameState} (h1 : Untouched a b) (h2 : Untouched b c) :
    Untouched a c :=
  ⟨countersEq_trans h1.1 h2.1, sched_trans h1.2 h2.2⟩

lemma untouched_contract {a b : GameState} (h : Untouched a b) :
    Contract a b ∧ SchedFields a b :=
  ⟨countersEq_contract h.1, h.2⟩

lemma randomDraw_untouched (s : GameState) : Untouched s (randomDraw s).2 := by
  simp [randomDraw, Untouched, CountersEq, SchedFields]

lemma takeDamage_facts (s : GameState) :
    (takeDamage s).2.energy = s.energy ∧
    (takeDamage s).2.multiplier = s.multiplier ∧
    (takeDamage s).2.score = s.score ∧
    (takeDamage s).2.maxHP = s.maxHP ∧
    (takeDamage s).2.mouseX = s.mouseX ∧
    (takeDamage s).2.mouseY = s.mouseY ∧
    (takeDamage s).2.mouseDown = s.mouseDown ∧
    SchedFields s (takeDamage s).2 ∧
    (takeDamage s).2.hp ≤ s.hp ∧
    ((takeDamage s).1 = false → 1 ≤ s.hp → 1 ≤ (takeDamage s).2.hp) ∧
    ((takeDamage s).1 = true → (takeDamage s).2.hp = s.hp - 1 ∧ s.hp ≤ 1) := by
  unfold takeDamage
  rcases hs : s.player with _ | p
  · simp [sched_rfl]
  · by_cases hInv : p.invincible
    · simp [hInv, sched_rfl]
    · simp only [hInv, Bool.false_eq_true, if_false]
      split_ifs with hHp
      · simp [SchedFields]
        omega
      · simp [SchedFields]
        omega

lemma gameOver_eq (s : GameState) :
    gameOver s = { s with isRunning := false, highScore := max s.highScore s.score } := by
  unfold gameOver
  by_cases h : s.score > s.highScore
  · simp [h, max_eq_right (le_of_lt h)]
  · simp [h, max_eq_left (not_lt.mp h)]

lemma takeDamage_contract_of_false (s : GameState) (h : (takeDamage s).1 = false) :
    Contract s (takeDamage s).2 ∧ SchedFields s (takeDamage s).2 := by
  obtain ⟨he, hm, hsc, hmh, hmx, hmy, hmd, hsch, hhp, hlive, _⟩ := takeDamage_facts s
  exact ⟨contract_of_eqs he hm (le_of_eq hsc.symm) hmh hhp (hlive h) hmx hmy hmd, hsch⟩

lemma takeDamage_dead_contract (s : GameState) (h : (takeDamage s).1 = true) :
    ContractDead s (takeDamage s).2 ∧ SchedFields s (takeDamage s).2 := by
  obtain ⟨he, hm, hsc, hmh, hmx, hmy, hmd, hsch, hhp, _, hdead⟩ := takeDamage_facts s
  refine ⟨contract_dead_of_eqs he hm (le_of_eq hsc.symm) hmh hhp ?_ hmx hmy hmd, hsch⟩
  intro h1
  obtain ⟨hq, _⟩ := hdead h
  omega

lemma gameOver_contract (s : GameState) :
    ContractDead s (gameOver s) ∧ DeadSched s (gameOver s) := by
  rw [gameOver_eq]
  refine ⟨contract_dead_of_eqs rfl rfl (le_refl _) rfl (le_refl _)
    (fun h => by show (0:ℤ) ≤ s.hp; omega) rfl rfl rfl, rfl, rfl, rfl, rfl⟩

lemma applyInput_fst (dt : ℝ) (s : GameState) (p : Player) :
    (applyInput dt s p).1 =
      { s with energy :=
          if (s.mouseDown || s.keySpace) && decide (s.energy > 0) then
            max 0 (s.energy - 0.5 * dt)
          else min 100 (s.energy + 0.1 * dt) } := rfl

lemma applyInput_contract (dt : ℝ) (s : GameState) (p : Player) (hdt : 0 ≤ dt) :
    Contract s (applyInput dt s p).1 ∧ SchedFields s (applyInput dt s p).1 := by
  rw [applyInput_fst]
  have h01 : (0:ℝ) ≤ 0.1 * dt := by
    have := mul_nonneg (by norm_num : (0:ℝ) ≤ 0.1) hdt
    linarith
  have h05 : (0:ℝ) ≤ 0.5 * dt := by
    have := mul_nonneg (by norm_num : (0:ℝ) ≤ 0.5) hdt
    linarith
  constructor
  · refine ⟨⟨?_, ?_, ?_, ?_, ?_, ?_, ?_, ?_, ?_, ?_⟩, ?_⟩ <;>
      simp only [GameState.mk.injEq] <;> try simp
    · intro h
      split_ifs
      · exact le_max_left 0 _
      · exact le_min (by norm_num) (by linarith)
    · intro h
      split_ifs
      · exact max_le (by norm_num) (by linarith)
      · exact min_le_left _ _
  · exact ⟨rfl, rfl, rfl, rfl⟩

lemma collectItem_energy_eq (c : Collectible) (s : GameState) (hc : c.type = .energy) :
    collectItem c s = { s with
      energy := min 100 (s.energy + 30),
      score := s.score + ⌊(100:ℝ) * 0.5 * s.multiplier⌋ } := by
  simp only [collectItem, hc]

lemma collectItem_points_eq (c : Collectible) (s : GameState) (hc : c.type = .points) :
    collectItem c s = { s with
      score := s.score + ⌊(100:ℝ) * s.multiplier⌋,
      coins := s.coins + (⌊s.rng s.rngIdx * 3⌋ + 1),
      sessionCoins := s.sessionCoins + (⌊s.rng s.rngIdx * 3⌋ + 1),
      rngIdx := s.rngIdx + 1 } := by
  simp only [collectItem, hc, addCoins, randomDraw]

lemma collectItem_multiplier_eq (c : Collectible) (s : GameState) (hc : c.type = .multiplier) :
    collectItem c s = { s with
      multiplier := min (s.multiplier + 0.5) 10,
      score := s.score + ⌊(100:ℝ) * 0.75 * min (s.multiplier + 0.5) 10⌋ } := by
  simp only [collectItem, hc]

lemma collectItem_shield_eq (c : Collectible) (s : GameState) (p : Player)
    (hc : c.type = .shield) (hs : s.player = some p) :
    collectItem c s = { s with
      player := some { p with invincible := true, invincibleTimer := 180 },
      score := s.score + ⌊(100:ℝ) * 0.5 * s.multiplier⌋ } := by
  simp only [collectItem, hc, hs]

lemma collectItem_shield_none_eq (c : Collectible) (s : GameState)
    (hc : c.type = .shield) (hs : s.player = none) :
    collectItem c s = { s with score := s.score + ⌊(100:ℝ) * 0.5 * s.multiplier⌋ } := by
  simp only [collectItem, hc, hs]

lemma collectItem_contract (c : Collectible) (s : GameState) :
    Contract s (collectItem c s) ∧ SchedFields s (collectItem c s) ∧
    (collectItem c s).hp = s.hp := by
  cases hc : c.type
  case energy =>
    rw [collectItem_energy_eq c s hc]
    refine ⟨⟨⟨?_, ?_, fun h => h, fun h => h, ?_, rfl, le_refl _, rfl, rfl, rfl⟩,
      fun h => h⟩, ⟨rfl, rfl, rfl, rfl⟩, rfl⟩
    · intro h; exact le_min (by norm_num) (by linarith)
    · intro _; exact min_le_left _ _
    · rintro ⟨h1, _⟩
      refine ⟨le_refl _, le_add_of_nonneg_right (Int.floor_nonneg.mpr (by nlinarith))⟩
  case points =>
    rw [collectItem_points_eq c s hc]
    refine ⟨⟨⟨fun h => h, fun h => h, fun h => h, fun h => h, ?_, rfl, le_refl _,
      rfl, rfl, rfl⟩, fun h => h⟩, ⟨rfl, rfl, rfl, rfl⟩, rfl⟩
    rintro ⟨h1, _⟩
    exact ⟨le_refl _, le_add_of_nonneg_right (Int.floor_nonneg.mpr (by nlinarith))⟩
  case multiplier =>
    rw [collectItem_multiplier_eq c s hc]
    refine ⟨⟨⟨fun h => h, fun h => h, ?_, ?_, ?_, rfl, le_refl _, rfl, rfl, rfl⟩,
      fun h => h⟩, ⟨rfl, rfl, rfl, rfl⟩, rfl⟩
    · intro h; exact le_min (by linarith) (by norm_num)
    · intro _; exact min_le_right _ _
    · rintro ⟨h1, h2⟩
      have hm' : (1:ℝ) ≤ min (s.multiplier + 0.5) 10 := le_min (by linarith) (by norm_num)
      exact ⟨le_min (by linarith) h2,
        le_add_of_nonneg_right (Int.floor_nonneg.mpr (by nlinarith))⟩
  case shield =>
    rcases hs : s.player with _ | p
    · rw [collectItem_shield_none_eq c s hc hs]
      refine ⟨⟨⟨fun h => h, fun h => h, fun h => h, fun h => h, ?_, rfl, le_refl _,
        rfl, rfl, rfl⟩, fun h => h⟩, ⟨rfl, rfl, rfl, rfl⟩, rfl⟩
      rintro ⟨h1, _⟩
      exact ⟨le_refl _, le_add_of_nonneg_right (Int.floor_nonneg.mpr (by nlinarith))⟩
    · rw [collectItem_shield_eq c s p hc hs]
      refine ⟨⟨⟨fun h => h, fun h => h, fun h => h, fun h => h, ?_, rfl, le_refl _,
        rfl, rfl, rfl⟩, fun h => h⟩, ⟨rfl, rfl, rfl, rfl⟩, rfl⟩
      rintro ⟨h1, _⟩
      exact ⟨le_refl _, le_add_of_nonneg_right (Int.floor_nonneg.mpr (by nlinarith))⟩

lemma untouched_set_collectibles (s : GameState) (l : List Collectible) :
    Untouched s { s with collectibles := l } := by
  simp [Untouched, CountersEq, SchedFields]

lemma untouched_set_blackHoles (s : GameState) (l : List BlackHole) :
    Untouched s { s with blackHoles := l } := by
  simp [Untouched, CountersEq, SchedFields]

lemma untouched_set_bullets (s : GameState) (l : List Bullet) :
    Untouched s { s with bullets := l } := by
  simp [Untouched, CountersEq, SchedFields]

lemma untouched_set_player (s : GameState) (p : Option Player) :
    Untouched s { s with player := p } := by
  simp [Untouched, CountersEq, SchedFields]

lemma untouched_set_rngIdx (s : GameState) (k : ℕ) :
    Untouched s { s with rngIdx := k } := by
  simp [Untouched, CountersEq, SchedFields]

lemma spawnBullet_untouched (hole : BlackHole) (s : GameState) :
    Untouched s (spawnBullet hole s) := by
  unfold spawnBullet
  rcases hs : s.player with _ | p <;> simp [hs, Untouched, CountersEq, SchedFields]

lemma spawnCollectible_untouched (s : GameState) :
    Untouched s (spawnCollectible s) := by
  unfold spawnCollectible
  simp [randomDraw, Untouched, CountersEq, SchedFields]

lemma pickHolePosition_untouched (fuel : ℕ) : ∀ s : GameState,
    Untouched s (pickHolePosition fuel s).2.2 := by
  induction fuel with
  | zero =>
    intro s
    simp [pickHolePosition, randomDraw, Untouched, CountersEq, SchedFields]
  | succ f ih =>
    intro s
    simp only [pickHolePosition, randomDraw]
    rcases hs : s.player with _ | p
    · simp only [hs]
      simp [Untouched, CountersEq, SchedFields]
    · simp only [hs]
      split_ifs with hd
      · refine untouched_trans ?_ (ih _)
        exact ⟨⟨rfl, rfl, rfl, rfl, rfl, rfl, rfl, rfl⟩, rfl, rfl, rfl, rfl⟩
      · simp [Untouched, CountersEq, SchedFields]

lemma spawnBlackHole_untouched (s : GameState) :
    Untouched s (spawnBlackHole s) := by
  unfold spawnBlackHole
  simp only [randomDraw]
  refine untouched_trans (pickHolePosition_untouched 49 s) ?_
  exact ⟨⟨rfl, rfl, rfl, rfl, rfl, rfl, rfl, rfl⟩, rfl, rfl, rfl, rfl⟩

lemma gameOver_counters (s : GameState) : CountersEq s (gameOver s) := by
  rw [gameOver_eq]
  simp [CountersEq]

lemma gameOver_dead_sched (s : GameState) : DeadSched s (gameOver s) := by
  rw [gameOver_eq]
  exact ⟨rfl, rfl, rfl, rfl⟩

lemma collectibleSpawnStep_counters (s : GameState) :
    CountersEq s (collectibleSpawnStep s) := by
  have h0 : CountersEq s { s with spawnTimer := 0 } :=
    ⟨rfl, rfl, rfl, rfl, rfl, rfl, rfl, rfl⟩
  simp only [collectibleSpawnStep]
  split_ifs with h1 h2
  · exact countersEq_trans (countersEq_trans (countersEq_trans h0
      (spawnCollectible_untouched _).1) (randomDraw_untouched _).1)
      (spawnCollectible_untouched _).1
  · exact countersEq_trans (countersEq_trans h0
      (spawnCollectible_untouched _).1) (randomDraw_untouched _).1
  · exact countersEq_rfl s

lemma holeSpawnStep_counters (s : GameState) :
    CountersEq s (holeSpawnStep s) := by
  simp only [holeSpawnStep]
  split_ifs with h1 h2
  · exact countersEq_trans (randomDraw_untouched _).1 (spawnBlackHole_untouched _).1
  · exact (randomDraw_untouched _).1
  · exact countersEq_rfl s

lemma applySpawning_counters (dt : ℝ) (s : GameState) :
    CountersEq s (applySpawning dt s) := by
  have h0 : CountersEq s
      { s with spawnTimer := s.spawnTimer + dt, difficultyTimer := s.difficultyTimer + dt } :=
    ⟨rfl, rfl, rfl, rfl, rfl, rfl, rfl, rfl⟩
  unfold applySpawning
  exact countersEq_trans (countersEq_trans h0 (collectibleSpawnStep_counters _))
    (holeSpawnStep_counters _)

lemma applyDifficulty_contract (s : GameState) :
    Contract s (applyDifficulty s) ∧ (applyDifficulty s).isRunning = s.isRunning := by
  unfold applyDifficulty
  split_ifs with h
  · refine ⟨⟨⟨fun h' => h', fun h' => h', ?_, ?_, ?_, rfl, le_refl _, rfl, rfl, rfl⟩,
      fun h' => h'⟩, rfl⟩
    · intro h'
      exact le_min (by linarith) (by norm_num)
    · intro _
      exact min_le_right _ _
    · rintro ⟨h1, h2⟩
      exact ⟨le_min (by linarith) h2, le_refl _⟩
  · exact ⟨contract_rfl s, rfl⟩

lemma processCollectiblesRev_contract (dt : ℝ) :
    ∀ (cs : List Collectible) (s : GameState) (kept : List Collectible),
      Contract s (processCollectiblesRev dt cs s kept).1 ∧
      SchedFields s (processCollectiblesRev dt cs s kept).1 := by
  intro cs
  induction cs with
  | nil =>
    intro s kept
    exact ⟨contract_rfl s, sched_rfl s⟩
  | cons c rev ih =>
    intro s kept
    rcases hs : s.player with _ | p
    · simp only [processCollectiblesRev, hs]
      split_ifs with hout
      · exact ih _ _
      · exact ih _ _
    · simp only [processCollectiblesRev, hs]
      split_ifs with hhit hout
      · obtain ⟨hc1, hc2, _⟩ := collectItem_contract (collectibleMove dt c) s
        obtain ⟨hi1, hi2⟩ := ih (collectItem (collectibleMove dt c) s) kept
        exact ⟨contract_trans hc1 hi1, sched_trans hc2 hi2⟩
      · exact ih _ _
      · exact ih _ _

lemma processCollectibles_contract (dt : ℝ) (s : GameState) :
    Contract s (processCollectibles dt s) ∧ SchedFields s (processCollectibles dt s) := by
  unfold processCollectibles
  obtain ⟨h1, h2⟩ := processCollectiblesRev_contract dt s.collectibles.reverse s []
  obtain ⟨h3, h4⟩ := untouched_contract (untouched_set_collectibles
    (processCollectiblesRev dt s.collectibles.reverse s []).1
    (processCollectiblesRev dt s.collectibles.reverse s []).2)
  exact ⟨contract_trans h1 h3, sched_trans h2 h4⟩

lemma processHolesLifecycleRev_untouched (dt : ℝ) :
    ∀ (hl : List BlackHole) (s : GameState) (kept : List BlackHole),
      Untouched s (processHolesLifecycleRev dt hl s kept).1 := by
  intro hl
  induction hl with
  | nil =>
    intro s kept
    exact untouched_rfl s
  | cons hole rev ih =>
    intro s kept
    simp only [processHolesLifecycleRev, randomDraw]
    split_ifs with hshoot hexp hexp
    · exact untouched_trans (untouched_trans (untouched_set_rngIdx s _)
        (spawnBullet_untouched _ _)) (ih _ _)
    · exact untouched_trans (untouched_trans (untouched_set_rngIdx s _)
        (spawnBullet_untouched _ _)) (ih _ _)
    · exact ih _ _
    · exact ih _ _

lemma processHolesLifecycle_untouched (dt : ℝ) (s : GameState) :
    Untouched s (processHolesLifecycle dt s) := by
  unfold processHolesLifecycle
  exact untouched_trans (processHolesLifecycleRev_untouched dt s.blackHoles.reverse s [])
    (untouched_set_blackHoles _ _)

lemma processHoles_spec (dt : ℝ) :
    ∀ (holes : List BlackHole) (s : GameState),
      (∀ s', processHoles dt holes s = .ok s' → Contract s s' ∧ SchedFields s s') ∧
      (∀ e, processHoles dt holes s = .error e → ContractDead s e ∧ DeadSched s e) := by
  intro holes
  induction holes with
  | nil =>
    intro s
    constructor
    · intro s' h
      simp only [processHoles, Except.ok.injEq] at h
      subst h
      exact ⟨contract_rfl s, sched_rfl s⟩
    · intro e h
      simp only [processHoles] at h
      exact absurd h (by simp)
  | cons hole rest ih =>
    intro s
    rcases hs : s.player with _ | p
    · constructor
      · intro s' h
        simp only [processHoles, hs, Except.ok.injEq] at h
        subst h
        exact ⟨contract_rfl s, sched_rfl s⟩
      · intro e h
        simp only [processHoles, hs] at h
        exact absurd h (by simp)
    · have hu := untouched_contract
        (untouched_set_player s (some (applyHoleForce dt p hole)))
      constructor
      · intro s' h
        simp only [processHoles, hs] at h
        split_ifs at h
        all_goals first
          | exact absurd h (by simp)
          | (obtain ⟨hr1, hr2⟩ := (ih _).1 s' h
             exact ⟨contract_trans hu.1 hr1, sched_trans hu.2 hr2⟩)
          | (have hf : (takeDamage
                  { s with player := some (applyHoleForce dt p hole) }).1 = false := by
               simp_all
             obtain ⟨hd1, hd2⟩ := takeDamage_contract_of_false _ hf
             obtain ⟨hr1, hr2⟩ := (ih _).1 s' h
             exact ⟨contract_trans (contract_trans hu.1 hd1) hr1,
               sched_trans (sched_trans hu.2 hd2) hr2⟩)
      · intro e h
        simp only [processHoles, hs] at h
        split_ifs at h
        all_goals first
          | (simp only [Except.error.injEq] at h
             subst h
             refine ⟨contract_dead_counters (contract_dead_trans hu.1
               (takeDamage_dead_contract _ (by simp_all)).1) (gameOver_counters _), ?_⟩
             exact sched_dead_trans (sched_trans hu.2
               (takeDamage_dead_contract _ (by simp_all)).2) (gameOver_dead_sched _))
          | (obtain ⟨hr1, hr2⟩ := (ih _).2 e h
             exact ⟨contract_dead_trans hu.1 hr1, sched_dead_trans hu.2 hr2⟩)
          | (have hf : (takeDamage
                  { s with player := some (applyHoleForce dt p hole) }).1 = false := by
               simp_all
             obtain ⟨hd1, hd2⟩ := takeDamage_contract_of_false _ hf
             obtain ⟨hr1, hr2⟩ := (ih _).2 e h
             exact ⟨contract_dead_trans (contract_trans hu.1 hd1) hr1,
               sched_dead_trans (sched_trans hu.2 hd2) hr2⟩)

lemma processBulletsRev_spec (dt : ℝ) :
    ∀ (bs : List Bullet) (s : GameState) (kept : List Bullet),
      (∀ s' k, processBulletsRev dt bs s kept = .ok (s', k) →
          Contract s s' ∧ SchedFields s s') ∧
      (∀ e, processBulletsRev dt bs s kept = .error e →
          ContractDead s e ∧ DeadSched s e) := by
  intro bs
  induction bs with
  | nil =>
    intro s kept
    constructor
    · intro s' k h
      simp only [processBulletsRev, Except.ok.injEq, Prod.mk.injEq] at h
      obtain ⟨h1, _⟩ := h
      subst h1
      exact ⟨contract_rfl s, sched_rfl s⟩
    · intro e h
      simp only [processBulletsRev] at h
      exact absurd h (by simp)
  | cons b rev ih =>
    intro s kept
    rcases hs : s.player with _ | p
    · constructor
      · intro s' k h
        simp only [processBulletsRev, hs] at h
        split_ifs at h with hout
        · exact (ih _ _).1 s' k h
        · exact (ih _ _).1 s' k h
      · intro e h
        simp only [processBulletsRev, hs] at h
        split_ifs at h with hout
        · exact (ih _ _).2 e h
        · exact (ih _ _).2 e h
    · constructor
      · intro s' k h
        simp only [processBulletsRev, hs] at h
        split_ifs at h
        all_goals first
          | exact absurd h (by simp)
          | exact (ih _ _).1 s' k h
          | (have hf : (takeDamage s).1 = false := by simp_all
             obtain ⟨hd1, hd2⟩ := takeDamage_contract_of_false _ hf
             obtain ⟨hr1, hr2⟩ := (ih _ _).1 s' k h
             exact ⟨contract_trans hd1 hr1, sched_trans hd2 hr2⟩)
      · intro e h
        simp only [processBulletsRev, hs] at h
        split_ifs at h
        all_goals first
          | (simp only [Except.error.injEq] at h
             subst h
             refine ⟨contract_dead_counters (contract_dead_counters
               (takeDamage_dead_contract s (by simp_all)).1
               (untouched_set_bullets _ _).1) (gameOver_counters _), ?_⟩
             exact sched_dead_trans (sched_trans
               (takeDamage_dead_contract s (by simp_all)).2
               (untouched_set_bullets _ _).2) (gameOver_dead_sched _))
          | exact (ih _ _).2 e h
          | (have hf : (takeDamage s).1 = false := by simp_all
             obtain ⟨hd1, hd2⟩ := takeDamage_contract_of_false _ hf
             obtain ⟨hr1, hr2⟩ := (ih _ _).2 e h
             exact ⟨contract_dead_trans hd1 hr1, sched_dead_trans hd2 hr2⟩)

lemma processBullets_spec (dt : ℝ) (s : GameState) :
    (∀ s', processBullets dt s = .ok s' → Contract s s' ∧ SchedFields s s') ∧
    (∀ e, processBullets dt s = .error e → ContractDead s e ∧ DeadSched s e) := by
  unfold processBullets
  rcases hr : processBulletsRev dt s.bullets.reverse s [] with e | r
  · constructor
    · intro s' h
      exact absurd h (by simp)
    · intro e' h
      simp only [Except.error.injEq] at h
      subst h
      exact (processBulletsRev_spec dt s.bullets.reverse s []).2 e hr
  · constructor
    · intro s' h
      simp only [Except.ok.injEq] at h
      subst h
      obtain ⟨h1, h2⟩ := (processBulletsRev_spec dt s.bullets.reverse s []).1 r.1 r.2 hr
      obtain ⟨h3, h4⟩ := untouched_contract (untouched_set_bullets r.1 r.2)
      exact ⟨contract_trans h1 h3, sched_trans h2 h4⟩
    · intro e h
      exact absurd h (by simp)

lemma updateBot_fields (now : ℝ) (s : GameState) :
    (updateBot now s).energy = s.energy ∧ (updateBot now s).multiplier = s.multiplier ∧
    (updateBot now s).score = s.score ∧ (updateBot now s).hp = s.hp ∧
    (updateBot now s).maxHP = s.maxHP ∧
    SchedFields s (updateBot now s) ∧
    (updateBot now s).player = s.player := by
  unfold updateBot SchedFields
  by_cases hb : s.botEnabled = false
  · simp [hb]
  · rw [if_neg hb]
    rcases hs : s.player with _ | p
    · simp [hs]
    · simp only [hs]
      rcases hbest : botBestCollectible s p with _ | bc <;>
        simp only [hbest] <;> split_ifs <;> simp [hs]

lemma updateCore_spec (s : GameState) (hdt : 0 ≤ s.deltaTime) :
    (∀ s', updateCore s = .ok s' → Contract s s') ∧
    (∀ e, updateCore s = .error e → ContractDead s e ∧ DeadSched s e) := by
  have hdt' : 0 ≤ normalizeDt s.deltaTime := div_nonneg hdt (by norm_num)
  rcases hs : s.player with _ | p
  · constructor
    · intro s' h
      simp only [updateCore, hs, Except.ok.injEq] at h
      subst h
      exact contract_rfl s
    · intro e h
      simp only [updateCore, hs] at h
      exact absurd h (by simp)
  · obtain ⟨ha1, ha2⟩ := applyInput_contract (normalizeDt s.deltaTime) s p hdt'
    obtain ⟨hp1, hp2⟩ := untouched_contract (untouched_set_player
      (applyInput (normalizeDt s.deltaTime) s p).1
      (some (applyInput (normalizeDt s.deltaTime) s p).2))
    have hC1 : Contract s { (applyInput (normalizeDt s.deltaTime) s p).1 with
        player := some (applyInput (normalizeDt s.deltaTime) s p).2 } :=
      contract_trans ha1 hp1
    have hS1 : SchedFields s { (applyInput (normalizeDt s.deltaTime) s p).1 with
        player := some (applyInput (normalizeDt s.deltaTime) s p).2 } :=
      sched_trans ha2 hp2
    have hrest : ∀ t : GameState, Contract s t → SchedFields s t →
        (∀ s', (match processBullets (normalizeDt s.deltaTime)
              (processHolesLifecycle (normalizeDt s.deltaTime)
                (processCollectibles (normalizeDt s.deltaTime) t)) with
          | .error e => (.error e : Except GameState GameState)
          | .ok s4 => .ok (applyDifficulty (applySpawning (normalizeDt s.deltaTime) s4)))
            = .ok s' → Contract s s') ∧
        (∀ e, (match processBullets (normalizeDt s.deltaTime)
              (processHolesLifecycle (normalizeDt s.deltaTime)
                (processCollectibles (normalizeDt s.deltaTime) t)) with
          | .error e => (.error e : Except GameState GameState)
          | .ok s4 => .ok (applyDifficulty (applySpawning (normalizeDt s.deltaTime) s4)))
            = .error e → ContractDead s e ∧ DeadSched s e) := by
      intro t hCt hSt
      obtain ⟨hc1, hc2⟩ := processCollectibles_contract (normalizeDt s.deltaTime) t
      obtain ⟨hl1, hl2⟩ := untouched_contract (processHolesLifecycle_untouched
        (normalizeDt s.deltaTime) (processCollectibles (normalizeDt s.deltaTime) t))
      have hC3 : Contract s (processHolesLifecycle (normalizeDt s.deltaTime)
          (processCollectibles (normalizeDt s.deltaTime) t)) :=
        contract_trans (contract_trans hCt hc1) hl1
      have hS3 : SchedFields s (processHolesLifecycle (normalizeDt s.deltaTime)
          (processCollectibles (normalizeDt s.deltaTime) t)) :=
        sched_trans (sched_trans hSt hc2) hl2
      obtain ⟨hbok, hberr⟩ := processBullets_spec (normalizeDt s.deltaTime)
        (processHolesLifecycle (normalizeDt s.deltaTime)
          (processCollectibles (normalizeDt s.deltaTime) t))
      rcases hb : processBullets (normalizeDt s.deltaTime)
          (processHolesLifecycle (normalizeDt s.deltaTime)
            (processCollectibles (normalizeDt s.deltaTime) t)) with e4 | s4
      · obtain ⟨hb1, hb2⟩ := hberr e4 hb
        constructor
        · intro s' h
          simp at h
        · intro e h
          simp only [Except.error.injEq] at h
          subst h
          exact ⟨contract_dead_trans hC3 hb1, sched_dead_trans hS3 hb2⟩
      · obtain ⟨hb1, hb2⟩ := hbok s4 hb
        constructor
        · intro s' h
          simp only [Except.ok.injEq] at h
          subst h
          have hsp := countersEq_contract (applySpawning_counters (normalizeDt s.deltaTime) s4)
          have hdiff := (applyDifficulty_contract (applySpawning (normalizeDt s.deltaTime) s4)).1
          exact contract_trans (contract_trans (contract_trans (contract_trans hC3 hb1)
            hsp) hdiff) (contract_rfl _)
        · intro e h
          simp at h
    constructor
    · intro s' h
      simp only [updateCore, hs] at h
      rcases hph : processHoles (normalizeDt s.deltaTime)
          ((applyInput (normalizeDt s.deltaTime) s p).1.blackHoles)
          { (applyInput (normalizeDt s.deltaTime) s p).1 with
            player := some (applyInput (normalizeDt s.deltaTime) s p).2 } with e1 | s2
      · rw [hph] at h
        exact absurd h (by simp)
      · rw [hph] at h
        obtain ⟨hh1, hh2⟩ := (processHoles_spec (normalizeDt s.deltaTime) _ _).1 s2 hph
        have hC2 : Contract s s2 := contract_trans hC1 hh1
        have hS2 : SchedFields s s2 := sched_trans hS1 hh2
        rcases hp2 : s2.player with _ | p2
        · simp only [hp2] at h
          exact ((hrest s2 hC2 hS2).1 s' h)
        · simp only [hp2] at h
          obtain ⟨hq1, hq2⟩ := untouched_contract (untouched_set_player s2
            (some (applyFrictionClampMove (normalizeDt s.deltaTime)
              s2.canvasWidth s2.canvasHeight p2)))
          exact ((hrest _ (contract_trans hC2 hq1) (sched_trans hS2 hq2)).1 s' h)
    · intro e h
      simp only [updateCore, hs] at h
      rcases hph : processHoles (normalizeDt s.deltaTime)
          ((applyInput (normalizeDt s.deltaTime) s p).1.blackHoles)
          { (applyInput (normalizeDt s.deltaTime) s p).1 with
            player := some (applyInput (normalizeDt s.deltaTime) s p).2 } with e1 | s2
      · rw [hph] at h
        simp only [Except.error.injEq] at h
        subst h
        obtain ⟨hh1, hh2⟩ := (processHoles_spec (normalizeDt s.deltaTime) _ _).2 e1 hph
        exact ⟨contract_dead_trans hC1 hh1, sched_dead_trans hS1 hh2⟩
      · rw [hph] at h
        obtain ⟨hh1, hh2⟩ := (processHoles_spec (normalizeDt s.deltaTime) _ _).1 s2 hph
        have hC2 : Contract s s2 := contract_trans hC1 hh1
        have hS2 : SchedFields s s2 := sched_trans hS1 hh2
        rcases hp2 : s2.player with _ | p2
        · simp only [hp2] at h
          exact ((hrest s2 hC2 hS2).2 e h)
        · simp only [hp2] at h
          obtain ⟨hq1, hq2⟩ := untouched_contract (untouched_set_player s2
            (some (applyFrictionClampMove (normalizeDt s.deltaTime)
              s2.canvasWidth s2.canvasHeight p2)))
          exact ((hrest _ (contract_trans hC2 hq1) (sched_trans hS2 hq2)).2 e h)

lemma update_master (now : ℝ) (s : GameState) (hdt : 0 ≤ s.deltaTime) :
    (0 ≤ s.energy → 0 ≤ (update now s).2.energy) ∧
    (s.energy ≤ 100 → (update now s).2.energy ≤ 100) ∧
    (1 ≤ s.multiplier → 1 ≤ (update now s).2.multiplier) ∧
    (s.multiplier ≤ 10 → (update now s).2.multiplier ≤ 10) ∧
    (1 ≤ s.multiplier ∧ s.multiplier ≤ 10 →
        s.multiplier ≤ (update now s).2.multiplier ∧ s.score ≤ (update now s).2.score) ∧
    (update now s).2.maxHP = s.maxHP ∧
    (update now s).2.hp ≤ s.hp ∧
    (1 ≤ s.hp → 0 ≤ (update now s).2.hp) ∧
    ((update now s).1 = true → (update now s).2.isRunning = false ∧
        (update now s).2.spawnTimer = s.spawnTimer ∧
        (update now s).2.difficultyTimer = s.difficultyTimer ∧
        (update now s).2.level = s.level) := by
  obtain ⟨hok, herr⟩ := updateCore_spec s hdt
  unfold update
  rcases hc : updateCore s with e | s'
  · obtain ⟨⟨hcore, hhp0⟩, hds⟩ := herr e hc
    obtain ⟨e0, e1, m0, m1, mono, mh, hp, _, _, _⟩ := hcore
    exact ⟨e0, e1, m0, m1, mono, mh, hp, hhp0,
      fun _ => ⟨hds.2.2.2, hds.1, hds.2.1, hds.2.2.1⟩⟩
  · obtain ⟨hcore, hhp1⟩ := hok s' hc
    obtain ⟨hbe, hbm, hbs, hbhp, hbmh, hbsched, _⟩ := updateBot_fields now s'
    obtain ⟨e0, e1, m0, m1, mono, mh, hp, _, _, _⟩ := hcore
    refine ⟨?_, ?_, ?_, ?_, ?_, ?_, ?_, ?_, ?_⟩
    · intro h; rw [hbe]; exact e0 h
    · intro h; rw [hbe]; exact e1 h
    · intro h; rw [hbm]; exact m0 h
    · intro h; rw [hbm]; exact m1 h
    · intro h
      obtain ⟨q1, q2⟩ := mono h
      rw [hbm, hbs]
      exact ⟨q1, q2⟩
    · rw [hbmh, mh]
    · rw [hbhp]; exact hp
    · intro h; rw [hbhp]; omega
    · intro h; exact absurd h (by simp)

lemma real_sqrt_100 : Real.sqrt 100 = 10 := by
  rw [show (100:ℝ) = 10 ^ 2 by norm_num, Real.sqrt_sq (by norm_num : (0:ℝ) ≤ 10)]

lemma real_sqrt_1600 : Real.sqrt 1600 = 40 := by
  rw [show (1600:ℝ) = 40 ^ 2 by norm_num, Real.sqrt_sq (by norm_num : (0:ℝ) ≤ 40)]

/-! ### The claims -/

/-- C9: `gameLoop` clamps the raw elapsed wall time to at most 50 ms
before normalizing by 16.67, so the per-tick `dt` never exceeds
50 / 16.67 (about 3.0); a raw stall of 200 ms is clamped to 50 ms and
normalizes to exactly 50 / 16.67; and a running, unpaused tick feeds
`update` exactly the clamped-and-normalized delta. -/
theorem dt_clamp_spec :
    (∀ now lastT : ℝ, normalizeDt (computeDelta now lastT) ≤ 50 / 16.67) ∧
    computeDelta 200 0 = 50 ∧
    normalizeDt (computeDelta 200 0) = 50 / 16.67 ∧
    ((50 : ℝ) / 16.67 < 3.0001 ∧ (2.999 : ℝ) < 50 / 16.67) ∧
    (∀ (now : ℝ) (s : GameState), s.isRunning = true → s.isPaused = false →
        gameLoopStep now s =
          update now { s with deltaTime := computeDelta now s.lastTime, lastTime := now }) := by
  have h50 : computeDelta 200 0 = 50 := by
    unfold computeDelta
    rw [show (200:ℝ) - 0 = 200 by norm_num]
    exact min_eq_right (by norm_num)
  refine ⟨?_, h50, by rw [h50]; rfl, ⟨by norm_num, by norm_num⟩, ?_⟩
  · intro now lastT
    unfold normalizeDt computeDelta
    exact (div_le_div_iff_of_pos_right (by norm_num)).mpr (min_le_right _ _)
  · intro now s h1 h2
    unfold gameLoopStep
    rw [if_neg]
    simp [h1, h2]

/-- Witness for C9's last conjunct at a concrete running state. -/
theorem dt_clamp_spec_witness :
    baseState.isRunning = true ∧ baseState.isPaused = false ∧
    gameLoopStep 0 baseState =
      update 0 { baseState with deltaTime := computeDelta 0 baseState.lastTime,
                                lastTime := 0 } :=
  ⟨rfl, rfl, dt_clamp_spec.2.2.2.2 0 baseState rfl rfl⟩

/-- C5 counterexample: when no cumulative threshold is met (a draw at or
beyond the total weight 1), the selection loop leaves the initial default
`types[0]`, which is `energy`, not the last category `shield` as the
claim states. -/
theorem weighted_draw_fallback_cex :
    selectCollectibleType 1 = CollectibleType.energy ∧
    CollectibleType.energy ≠ CollectibleType.shield := by
  constructor
  · norm_num [selectCollectibleType, collectibleWeights, selectCollectibleTypeLoop]
  · decide

/-- C5 amended: the draw walks the cumulative thresholds
0.4, 0.75, 0.9, 1 and picks the first category whose threshold exceeds
the draw; when no threshold is met the loop's initial default — the FIRST
category, `energy` — is selected. -/
theorem weighted_draw_spec (u : ℝ) :
    selectCollectibleType u =
      if u < 0.4 then CollectibleType.energy
      else if u < 0.75 then CollectibleType.points
      else if u < 0.9 then CollectibleType.multiplier
      else if u < 1 then CollectibleType.shield
      else CollectibleType.energy := by
  simp only [selectCollectibleType, collectibleWeights, selectCollectibleTypeLoop]
  split_ifs <;> first | rfl | (exfalso; linarith)

/-- C2 is a code bug: for a hazard whose centre coincides exactly with
the player's position the gravity loop divides `0 / 0`; in IEEE
arithmetic this is NaN, which poisons the velocity — the hazard is not
treated as "no force" and the zero-distance normalization is not
guarded.  `gravityKick` is the IEEE-faithful embedding of src/game.js
lines 757-766, and `none` is the non-finite (NaN) outcome. -/
theorem gravity_zero_distance_nan :
    samplePlayer.x = zeroDistHole.x ∧ samplePlayer.y = zeroDistHole.y ∧
    0 < zeroDistHole.pullRadius ∧
    gravityKick 1 samplePlayer zeroDistHole = none := by
  refine ⟨rfl, rfl, by norm_num [zeroDistHole], ?_⟩
  norm_num [gravityKick, jsDiv, hypot2, samplePlayer, zeroDistHole, Real.sqrt_zero]

/-- C8: collecting a `points` collectible adds exactly
`floor(100 * multiplier)` to the score (exactly 200 at multiplier 2),
awards `floor(u * 3) + 1` coins for the fresh draw `u` — a value in
{1, 2, 3} whose preimages partition [0, 1) into three equal-length
intervals (a uniform draw) — and changes none of energy, multiplier,
hp or the player's invulnerability state. -/
theorem points_collection_spec (s : GameState) (item : Collectible)
    (hType : item.type = CollectibleType.points) :
    (collectItem item s).score = s.score + ⌊(100:ℝ) * s.multiplier⌋ ∧
    (s.multiplier = 2 → (collectItem item s).score = s.score + 200) ∧
    (collectItem item s).coins = s.coins + (⌊s.rng s.rngIdx * 3⌋ + 1) ∧
    (collectItem item s).energy = s.energy ∧
    (collectItem item s).multiplier = s.multiplier ∧
    (collectItem item s).hp = s.hp ∧
    (collectItem item s).player = s.player ∧
    (∀ u : ℝ, 0 ≤ u → u < 1 →
        (1 ≤ ⌊u * 3⌋ + 1 ∧ ⌊u * 3⌋ + 1 ≤ 3) ∧
        (∀ k : ℤ, ⌊u * 3⌋ + 1 = k ↔ ((k:ℝ) - 1) / 3 ≤ u ∧ u < (k:ℝ) / 3)) := by
  rw [collectItem_points_eq item s hType]
  refine ⟨by simp, ?_, by simp, by simp, by simp, by simp, by simp, ?_⟩
  · intro hm
    simp only [hm]
    norm_num
  · intro u hu0 hu1
    constructor
    · constructor
      · have : (0:ℤ) ≤ ⌊u * 3⌋ := Int.floor_nonneg.mpr (by nlinarith)
        omega
      · have : ⌊u * 3⌋ < 3 := by
          rw [Int.floor_lt]
          push_cast
          nlinarith
        omega
    · intro k
      constructor
      · intro hk
        have hfl : ⌊u * 3⌋ = k - 1 := by omega
        rw [Int.floor_eq_iff] at hfl
        obtain ⟨hl, hr⟩ := hfl
        push_cast at hl hr
        constructor <;> nlinarith
      · rintro ⟨hl, hr⟩
        have hfl : ⌊u * 3⌋ = k - 1 := by
          rw [Int.floor_eq_iff]
          push_cast
          constructor <;> nlinarith
        omega

/-- Witness for C8 at a concrete state and item. -/
theorem points_collection_spec_witness :
    pointsItem.type = CollectibleType.points ∧
    (collectItem pointsItem baseState).score =
      baseState.score + ⌊(100:ℝ) * baseState.multiplier⌋ ∧
    (collectItem pointsItem baseState).energy = baseState.energy :=
  ⟨rfl, (points_collection_spec baseState pointsItem rfl).1,
    (points_collection_spec baseState pointsItem rfl).2.2.2.1⟩

lemma takeDamage_hp_eq (s : GameState) (p : Player) (hps : s.player = some p)
    (hinv : p.invincible = false) : (takeDamage s).2.hp = s.hp - 1 := by
  simp only [takeDamage, hps, hinv, Bool.false_eq_true, if_false]
  split_ifs <;> simp

lemma deathState_update_died : (update 0 deathState).1 = true := by
  norm_num [update, updateCore, applyInput, processHoles, applyHoleForce, takeDamage,
    gameOver, normalizeDt, deathState, baseState, samplePlayer, deathHole,
    hypot2_zero, hypot2_x, hypot2_y, randomDraw, min_def, max_def]

/-- C1: the damage procedure.  A hit during the grace window changes no
state and reports no death.  Otherwise `hp` drops by exactly 1; if the new
`hp` is at most 0 the terminal transition is signalled, else the 120-tick
grace window opens.  A second application after a non-fatal call is a
no-op (so `hp` changes at most once inside the window).  A fatal tick
stops the run and skips the remainder of that tick (its spawn/difficulty
scheduling and level are untouched), and a stopped run processes no
further ticks, so the terminal transition fires at most once per run. -/
theorem damage_procedure_spec :
    (∀ (s : GameState) (p : Player), s.player = some p → p.invincible = true →
        takeDamage s = (false, s)) ∧
    (∀ (s : GameState) (p : Player), s.player = some p → p.invincible = false →
        (takeDamage s).2.hp = s.hp - 1 ∧
        (s.hp - 1 ≤ 0 → takeDamage s = (true, { s with hp := s.hp - 1 })) ∧
        (0 < s.hp - 1 → (takeDamage s).1 = false ∧
            (takeDamage s).2.player =
              some { p with invincible := true, invincibleTimer := 120 })) ∧
    (∀ s : GameState, (takeDamage s).1 = false →
        takeDamage (takeDamage s).2 = takeDamage s) ∧
    (∀ (now : ℝ) (s : GameState), 0 ≤ s.deltaTime → (update now s).1 = true →
        (update now s).2.isRunning = false ∧
        (update now s).2.spawnTimer = s.spawnTimer ∧
        (update now s).2.difficultyTimer = s.difficultyTimer ∧
        (update now s).2.level = s.level) ∧
    (∀ (now : ℝ) (s : GameState), s.isRunning = false →
        gameLoopStep now s = (false, s)) := by
  refine ⟨?_, ?_, ?_, ?_, ?_⟩
  · intro s p hps hinv
    simp [takeDamage, hps, hinv]
  · intro s p hps hinv
    refine ⟨takeDamage_hp_eq s p hps hinv, ?_, ?_⟩
    · intro hh
      simp [takeDamage, hps, hinv, hh]
    · intro hh
      have hns : ¬ (s.hp - 1 ≤ 0) := by omega
      constructor <;> simp [takeDamage, hps, hinv, hns]
  · intro s h
    rcases hps : s.player with _ | p
    · simp [takeDamage, hps]
    · by_cases hinv : p.invincible
      · simp [takeDamage, hps, hinv]
      · by_cases hh : s.hp - 1 ≤ 0
        · exfalso
          simp [takeDamage, hps, hinv, hh] at h
        · simp [takeDamage, hps, hinv, hh]
  · intro now s hdt hdied
    obtain ⟨_, _, _, _, _, _, _, _, hlast⟩ := update_master now s hdt
    exact hlast hdied
  · intro now s h
    simp [gameLoopStep, h]

/-- Witness for C1 at concrete states: an invulnerable hit is a no-op, a
vulnerable 1-hp hit drops `hp` to 0, repeating a non-fatal hit changes
nothing, a fatal tick reports death and stops the run, and a stopped run
ignores further ticks. -/
theorem damage_procedure_spec_witness :
    (invulnState.player =
        some { samplePlayer with invincible := true, invincibleTimer := 60 } ∧
      takeDamage invulnState = (false, invulnState)) ∧
    (baseState.player = some samplePlayer ∧
      (takeDamage baseState).2.hp = baseState.hp - 1) ∧
    takeDamage (takeDamage invulnState).2 = takeDamage invulnState ∧
    (0 ≤ deathState.deltaTime ∧ (update 0 deathState).1 = true ∧
      (update 0 deathState).2.isRunning = false) ∧
    (stoppedState.isRunning = false ∧ gameLoopStep 0 stoppedState = (false, stoppedState)) := by
  have h1 : takeDamage invulnState = (false, invulnState) :=
    damage_procedure_spec.1 invulnState _ rfl rfl
  have hdt : (0:ℝ) ≤ deathState.deltaTime := by norm_num [deathState, baseState]
  have hdied := deathState_update_died
  refine ⟨⟨rfl, h1⟩,
    ⟨rfl, (damage_procedure_spec.2.1 baseState samplePlayer rfl rfl).1⟩, ?_,
    ⟨hdt, hdied, (damage_procedure_spec.2.2.2.1 0 deathState hdt hdied).1⟩,
    ⟨rfl, damage_procedure_spec.2.2.2.2 0 stoppedState rfl⟩⟩
  have h2 : (takeDamage invulnState).1 = false := by rw [h1]
  exact damage_procedure_spec.2.2.1 invulnState h2

/-- C4: starting a tick inside the documented invariants (a live player,
`energy` in [0,100], `multiplier` in [1,10], `hp` in [1,maxHP], a
non-negative elapsed delta), the state after the whole tick — integrator,
collision resolution and collection effects included — still satisfies
`energy` in [0,100], `hp` in [0,maxHP] and `multiplier` in [1,10]. -/
theorem tick_invariants (now : ℝ) (s : GameState)
    (hE0 : 0 ≤ s.energy) (hE1 : s.energy ≤ 100) (hM0 : 1 ≤ s.multiplier)
    (hM1 : s.multiplier ≤ 10) (hH0 : 1 ≤ s.hp) (hH1 : s.hp ≤ s.maxHP)
    (hdt : 0 ≤ s.deltaTime) :
    0 ≤ (update now s).2.energy ∧ (update now s).2.energy ≤ 100 ∧
    0 ≤ (update now s).2.hp ∧ (update now s).2.hp ≤ (update now s).2.maxHP ∧
    1 ≤ (update now s).2.multiplier ∧ (update now s).2.multiplier ≤ 10 := by
  obtain ⟨e0, e1, m0, m1, _, mh, hple, hp0, _⟩ := update_master now s hdt
  refine ⟨e0 hE0, e1 hE1, hp0 hH0, ?_, m0 hM0, m1 hM1⟩
  rw [mh]
  omega

/-- Witness for C4 at a concrete state. -/
theorem tick_invariants_witness :
    (0 ≤ baseState.energy ∧ baseState.energy ≤ 100 ∧ 1 ≤ baseState.multiplier ∧
      baseState.multiplier ≤ 10 ∧ 1 ≤ baseState.hp ∧ baseState.hp ≤ baseState.maxHP ∧
      0 ≤ baseState.deltaTime) ∧
    (0 ≤ (update 0 baseState).2.energy ∧ (update 0 baseState).2.energy ≤ 100 ∧
      0 ≤ (update 0 baseState).2.hp ∧
      (update 0 baseState).2.hp ≤ (update 0 baseState).2.maxHP ∧
      1 ≤ (update 0 baseState).2.multiplier ∧ (update 0 baseState).2.multiplier ≤ 10) := by
  have h1 : (0:ℝ) ≤ baseState.energy := by norm_num [baseState]
  have h2 : baseState.energy ≤ 100 := by norm_num [baseState]
  have h3 : (1:ℝ) ≤ baseState.multiplier := by norm_num [baseState]
  have h4 : baseState.multiplier ≤ 10 := by norm_num [baseState]
  have h5 : (1:ℤ) ≤ baseState.hp := by norm_num [baseState]
  have h6 : baseState.hp ≤ baseState.maxHP := by norm_num [baseState]
  have h7 : (0:ℝ) ≤ baseState.deltaTime := by norm_num [baseState]
  exact ⟨⟨h1, h2, h3, h4, h5, h6, h7⟩,
    tick_invariants 0 baseState h1 h2 h3 h4 h5 h6 h7⟩

/-- C10: within a run, `score` and `multiplier` never decrease across a
tick (every per-tick operation leaves them unchanged or increases them),
and they are reset — to 0 and 1 — exactly when a new run starts via
`startGame`. -/
theorem score_multiplier_monotone :
    (∀ (now : ℝ) (s : GameState), 1 ≤ s.multiplier → s.multiplier ≤ 10 →
        0 ≤ s.deltaTime →
        s.score ≤ (update now s).2.score ∧
        s.multiplier ≤ (update now s).2.multiplier) ∧
    (∀ (ship : ShipType) (now : ℝ) (s : GameState),
        (startGame ship now s).score = 0 ∧ (startGame ship now s).multiplier = 1) := by
  constructor
  · intro now s h1 h2 hdt
    obtain ⟨_, _, _, _, mono, _⟩ := update_master now s hdt
    obtain ⟨q1, q2⟩ := mono ⟨h1, h2⟩
    exact ⟨q2, q1⟩
  · intro ship now s
    constructor <;> simp [startGame, createPlayer]

/-- Witness for C10 at a concrete state and ship class. -/
theorem score_multiplier_monotone_witness :
    (1 ≤ baseState.multiplier ∧ baseState.multiplier ≤ 10 ∧ 0 ≤ baseState.deltaTime) ∧
    (baseState.score ≤ (update 0 baseState).2.score ∧
      baseState.multiplier ≤ (update 0 baseState).2.multiplier) ∧
    ((startGame speederShip 0 baseState).score = 0 ∧
      (startGame speederShip 0 baseState).multiplier = 1) := by
  have h1 : (1:ℝ) ≤ baseState.multiplier := by norm_num [baseState]
  have h2 : baseState.multiplier ≤ 10 := by norm_num [baseState]
  have h3 : (0:ℝ) ≤ baseState.deltaTime := by norm_num [baseState]
  exact ⟨⟨h1, h2, h3⟩, score_multiplier_monotone.1 0 baseState h1 h2 h3,
    score_multiplier_monotone.2 speederShip 0 baseState⟩

lemma applyHoleForce_fields (dt : ℝ) (p : Player) (hole : BlackHole) :
    (applyHoleForce dt p hole).invincible = p.invincible ∧
    (applyHoleForce dt p hole).x = p.x ∧ (applyHoleForce dt p hole).y = p.y := by
  unfold applyHoleForce
  dsimp only
  split_ifs <;> exact ⟨rfl, rfl, rfl⟩

/-- C3 counterexample: the player (radius 15, at distance 40) and
`c3Hole` (event-horizon radius 30) overlap under the claimed
sum-of-radii test (40 < 15 + 30), the player is vulnerable, yet the
hazard-contact pass applies no damage and signals no death — the code
tests `dist < hole.radius` alone. -/
theorem hazard_contact_cex :
    hypot2 (c3Hole.x - samplePlayer.x) (c3Hole.y - samplePlayer.y) <
      samplePlayer.radius + c3Hole.radius ∧
    samplePlayer.invincible = false ∧
    baseState.player = some samplePlayer ∧
    baseState.hp = 1 ∧
    processHoles 1 [c3Hole] baseState = .ok baseState := by
  refine ⟨?_, rfl, rfl, rfl, ?_⟩
  · norm_num [c3Hole, samplePlayer, hypot2_x]
  · norm_num [processHoles, applyHoleForce, baseState, samplePlayer, c3Hole,
      hypot2_x, hypot2_zero]

/-- C3 amended: the event-horizon contact that triggers the damage
procedure holds exactly when the centre distance is below the hazard's
own event-horizon radius (the player's radius is NOT added) and the
player is not invulnerable; otherwise the pass only applies gravity. -/
theorem hazard_contact_amended (dt : ℝ) (s : GameState) (p : Player) (hole : BlackHole)
    (hps : s.player = some p) :
    ((hypot2 (hole.x - p.x) (hole.y - p.y) < hole.radius ∧ p.invincible = false) →
        (∀ s', processHoles dt [hole] s = .ok s' → s'.hp = s.hp - 1) ∧
        (∀ e, processHoles dt [hole] s = .error e → e.hp = s.hp - 1)) ∧
    (¬(hypot2 (hole.x - p.x) (hole.y - p.y) < hole.radius ∧ p.invincible = false) →
        processHoles dt [hole] s =
          .ok { s with player := some (applyHoleForce dt p hole) }) := by
  obtain ⟨hfi, hfx, hfy⟩ := applyHoleForce_fields dt p hole
  have hXplayer : ({ s with player := some (applyHoleForce dt p hole) } : GameState).player
      = some (applyHoleForce dt p hole) := rfl
  constructor
  · rintro ⟨hd, hinv⟩
    have hcond : hypot2 (hole.x - p.x) (hole.y - p.y) < hole.radius ∧
        (applyHoleForce dt p hole).invincible = false := ⟨hd, by rw [hfi]; exact hinv⟩
    have hhp : (takeDamage { s with player := some (applyHoleForce dt p hole) }).2.hp
        = s.hp - 1 := by
      rw [takeDamage_hp_eq _ (applyHoleForce dt p hole) hXplayer (by rw [hfi]; exact hinv)]
    constructor
    · intro s' h
      simp only [processHoles, hps, if_pos hcond] at h
      by_cases hdead :
          (takeDamage { s with player := some (applyHoleForce dt p hole) }).1 = true
      · rw [if_pos hdead] at h
        exact absurd h (by simp)
      · rw [if_neg hdead] at h
        simp only [processHoles, Except.ok.injEq] at h
        subst h
        exact hhp
    · intro e h
      simp only [processHoles, hps, if_pos hcond] at h
      by_cases hdead :
          (takeDamage { s with player := some (applyHoleForce dt p hole) }).1 = true
      · rw [if_pos hdead] at h
        simp only [Except.error.injEq] at h
        subst h
        rw [← (gameOver_counters _).2.2.2.1] at hhp
        exact hhp
      · rw [if_neg hdead] at h
        simp [processHoles] at h
  · intro hncond
    have hncond' : ¬(hypot2 (hole.x - p.x) (hole.y - p.y) < hole.radius ∧
        (applyHoleForce dt p hole).invincible = false) := by
      rw [hfi]
      exact hncond
    simp only [processHoles, hps, if_neg hncond']

/-- Witness for C3's amended statement: at distance 40 with event-horizon
radius 30 the contact condition fails and the pass is gravity-only. -/
theorem hazard_contact_amended_witness :
    baseState.player = some samplePlayer ∧
    ¬(hypot2 (c3Hole.x - samplePlayer.x) (c3Hole.y - samplePlayer.y) < c3Hole.radius ∧
        samplePlayer.invincible = false) ∧
    processHoles 1 [c3Hole] baseState =
      .ok { baseState with player := some (applyHoleForce 1 samplePlayer c3Hole) } := by
  have hn : ¬(hypot2 (c3Hole.x - samplePlayer.x) (c3Hole.y - samplePlayer.y) <
      c3Hole.radius ∧ samplePlayer.invincible = false) := by
    norm_num [c3Hole, samplePlayer, hypot2_x]
  exact ⟨rfl, hn, (hazard_contact_amended 1 baseState samplePlayer c3Hole rfl).2 hn⟩

lemma botState_eval :
    update 0 botState = (false, { botState with
      player := some samplePlayer, mouseY := 450,
      spawnTimer := 1, difficultyTimer := 1, rngIdx := 1 }) := by
  norm_num [update, updateCore, updateBot, preBot, applyInput, processHoles,
    applyFrictionClampMove, processCollectibles, processCollectiblesRev,
    processHolesLifecycle, processHolesLifecycleRev, processBullets,
    processBulletsRev, applySpawning, collectibleSpawnStep, holeSpawnStep,
    applyDifficulty, randomDraw, normalizeDt, botState, baseState, samplePlayer,
    botBestCollectible, botEvasion, botDanger, botTypeBonus,
    clampTargetX, clampTargetY, hypot2_zero, hypot2_x, hypot2_y,
    Real.sin_zero, Real.cos_zero, min_def, max_def]

lemma botState2_eval :
    update 0 botState2 = (false, { botState2 with
      player := some { samplePlayer with vy := 0.5, y := 300.5 },
      spawnTimer := 1, difficultyTimer := 1, rngIdx := 1 }) := by
  have habs1 : |(150:ℝ)| = 150 := abs_of_nonneg (by norm_num)
  have habs2 : |(1:ℝ)/2| = 1/2 := abs_of_nonneg (by norm_num)
  have habs3 : |(0.5:ℝ)| = 0.5 := abs_of_nonneg (by norm_num)
  norm_num [habs1, habs2, habs3, update, updateCore, updateBot, preBot, applyInput,
    processHoles,
    applyFrictionClampMove, processCollectibles, processCollectiblesRev,
    processHolesLifecycle, processHolesLifecycleRev, processBullets,
    processBulletsRev, applySpawning, collectibleSpawnStep, holeSpawnStep,
    applyDifficulty, randomDraw, normalizeDt, botState2, botState, baseState,
    samplePlayer, botBestCollectible, botEvasion, botDanger, botTypeBonus,
    clampTargetX, clampTargetY, hypot2_zero, hypot2_x, hypot2_y,
    Real.sin_zero, Real.cos_zero, min_def, max_def]

/-- C6 counterexample: with the pilot enabled and the incoming input at
the player's own position, a tick in which the pilot produces the patrol
target (500, 450) leaves the player's velocity at zero — the integrator
consumed the stale external input (500, 300), not the target the pilot
produced that same tick.  Feeding the pilot's target in as the incoming
input instead (`botState2`) makes the same tick accelerate the player
(final vy = 0.5 after friction).  So the pilot runs after, not before,
the integrator. -/
theorem pilot_order_cex :
    (update 0 botState).1 = false ∧
    botState.mouseY = 300 ∧
    (update 0 botState).2.mouseX = 500 ∧
    (update 0 botState).2.mouseY = 450 ∧
    (∃ p, (update 0 botState).2.player = some p ∧ p.vx = 0 ∧ p.vy = 0) ∧
    botState2.mouseY = 450 ∧
    (∃ p, (update 0 botState2).2.player = some p ∧ p.vy = 0.5) := by
  refine ⟨by rw [botState_eval], rfl, by rw [botState_eval]; try rfl,
    by rw [botState_eval]; try rfl, ?_, rfl, ?_⟩
  · exact ⟨samplePlayer, by rw [botState_eval], rfl, rfl⟩
  · exact ⟨{ samplePlayer with vy := 0.5, y := 300.5 }, by rw [botState2_eval], rfl⟩

/-- C6 amended: within a tick the pilot runs last, after the integrator
and every other phase: when a tick completes (no fatal hit), its result
is exactly `updateBot` applied to the pre-bot state, and no phase before
the bot touches the input signal — the integrator consumed the input as
supplied at tick start (the pilot's output is only seen by the NEXT
tick). -/
theorem pilot_runs_after_integrator (now : ℝ) (s : GameState)
    (hdt : 0 ≤ s.deltaTime) (h : (update now s).1 = false) :
    (update now s).2 = updateBot now (preBot s) ∧
    (preBot s).mouseX = s.mouseX ∧ (preBot s).mouseY = s.mouseY ∧
    (preBot s).mouseDown = s.mouseDown := by
  obtain ⟨hok, herr⟩ := updateCore_spec s hdt
  rcases hc : updateCore s with e | s'
  · exfalso
    unfold update at h
    rw [hc] at h
    simp at h
  · obtain ⟨core, _⟩ := hok s' hc
    obtain ⟨_, _, _, _, _, _, _, mx, my, md⟩ := core
    have hpre : preBot s = s' := by
      unfold preBot
      rw [hc]
    have hupd : update now s = (false, updateBot now s') := by
      unfold update
      rw [hc]
    rw [hupd, hpre]
    exact ⟨rfl, mx, my, md⟩

/-- Witness for C6's amended statement at a concrete pilot-enabled
state. -/
theorem pilot_runs_after_integrator_witness :
    0 ≤ botState.deltaTime ∧ (update 0 botState).1 = false ∧
    ((update 0 botState).2 = updateBot 0 (preBot botState) ∧
      (preBot botState).mouseX = botState.mouseX ∧
      (preBot botState).mouseY = botState.mouseY ∧
      (preBot botState).mouseDown = botState.mouseDown) := by
  have hdt : (0:ℝ) ≤ botState.deltaTime := by norm_num [botState, baseState]
  have hnd : (update 0 botState).1 = false := by rw [botState_eval]
  exact ⟨hdt, hnd, pilot_runs_after_integrator 0 botState hdt hnd⟩

lemma clamp_bounds (lo hi x : ℝ) (h : lo ≤ hi) :
    lo ≤ max lo (min hi x) ∧ max lo (min hi x) ≤ hi :=
  ⟨le_max_left _ _, max_le h (min_le_left _ _)⟩

lemma c7_bot_eval : updateBot 0 c7State = { c7State with mouseDown := true } := by
  have habs1 : |(100:ℝ)| = 100 := abs_of_nonneg (by norm_num)
  have habs2 : |(-100:ℝ)| = 100 := by rw [abs_of_nonpos (by norm_num)]; norm_num
  have habs3 : |(300:ℝ)| = 300 := abs_of_nonneg (by norm_num)
  have habs4 : |(400:ℝ)| = 400 := abs_of_nonneg (by norm_num)
  have habs5 : |(200:ℝ)| = 200 := abs_of_nonneg (by norm_num)
  norm_num [updateBot, botBestCollectible, botEvasion, botDanger, botTypeBonus,
    clampTargetX, clampTargetY, c7State, baseState, samplePlayer, c7HoleA, c7HoleB,
    c7Collectible, hypot2_zero, hypot2_x, hypot2_y, List.foldl_cons, List.foldl_nil,
    min_def, max_def, decide_eq_true_eq, habs1, habs2, habs3, habs4, habs5]

/-- C7 counterexample: with two hazards placed symmetrically about the
player, the accumulated evasion vector is exactly zero while the
danger flag is set, and a best-scoring collectible (at (800, 300))
exists.  The claim then requires the target to become the collectible's
position and engage = (distance > 200 AND energy > 30) = false (energy
is 25).  The code instead branches on the danger flag: it keeps the
previous target (700, 400) and sets engage = (energy > 20) = true. -/
theorem pilot_decision_cex :
    botEvasion c7State samplePlayer = (0, 0, true) ∧
    (∃ sc, botBestCollectible c7State samplePlayer = some (c7Collectible, sc)) ∧
    updateBot 0 c7State = { c7State with mouseDown := true } ∧
    (updateBot 0 c7State).mouseX = 700 ∧ (updateBot 0 c7State).mouseY = 400 ∧
    (updateBot 0 c7State).mouseDown = true ∧
    c7Collectible.x = 800 ∧ c7Collectible.y = 300 ∧
    ¬(c7State.energy > 30) := by
  have habs1 : |(100:ℝ)| = 100 := abs_of_nonneg (by norm_num)
  have habs2 : |(-100:ℝ)| = 100 := by rw [abs_of_nonpos (by norm_num)]; norm_num
  have habs3 : |(300:ℝ)| = 300 := abs_of_nonneg (by norm_num)
  have habs4 : |(400:ℝ)| = 400 := abs_of_nonneg (by norm_num)
  have habs5 : |(200:ℝ)| = 200 := abs_of_nonneg (by norm_num)
  refine ⟨?_, ⟨-200, ?_⟩, c7_bot_eval, by rw [c7_bot_eval]; try rfl,
    by rw [c7_bot_eval]; try rfl, by rw [c7_bot_eval]; try rfl, rfl, rfl,
    by norm_num [c7State, baseState]⟩
  · norm_num [botEvasion, c7State, baseState, samplePlayer, c7HoleA, c7HoleB,
      hypot2_zero, hypot2_x, hypot2_y, List.foldl_cons, List.foldl_nil,
      habs1, habs2]
  · have ht1 : CollectibleType.points ≠ CollectibleType.shield := by decide
    have ht2 : CollectibleType.points ≠ CollectibleType.multiplier := by decide
    have ht3 : CollectibleType.points ≠ CollectibleType.energy := by decide
    norm_num [botBestCollectible, botDanger, botTypeBonus, c7State, baseState,
      samplePlayer, c7HoleA, c7HoleB, c7Collectible, hypot2_zero, hypot2_x,
      hypot2_y, List.foldl_cons, List.foldl_nil, habs1, habs2, habs3, habs4, habs5,
      if_neg ht1, if_neg ht2, if_neg ht3]

/-- C7 amended: the pilot branches on the danger flag, not on the evasion
vector being non-zero.  When any threat is in evasion range: engage =
(energy > 20), and the target is player + normalized evasion times 200
only when the evasion vector is non-zero — otherwise the previous target
is kept (merely re-clamped).  Only when NO threat is in range does a best
collectible set the target, with engage = (distance > 200 AND
energy > 30).  The produced target always ends clamped 50 units inside
each screen edge. -/
theorem pilot_decision_amended (now : ℝ) (s : GameState) (p : Player)
    (hb : s.botEnabled = true) (hps : s.player = some p) :
    ((botEvasion s p).2.2 = true →
        (updateBot now s).mouseDown = decide (s.energy > 20) ∧
        (hypot2 (botEvasion s p).1 (botEvasion s p).2.1 > 0 →
          (updateBot now s).mouseX = clampTargetX s
            (p.x + (botEvasion s p).1 /
              hypot2 (botEvasion s p).1 (botEvasion s p).2.1 * 200) ∧
          (updateBot now s).mouseY = clampTargetY s
            (p.y + (botEvasion s p).2.1 /
              hypot2 (botEvasion s p).1 (botEvasion s p).2.1 * 200)) ∧
        (¬ hypot2 (botEvasion s p).1 (botEvasion s p).2.1 > 0 →
          (updateBot now s).mouseX = clampTargetX s s.mouseX ∧
          (updateBot now s).mouseY = clampTargetY s s.mouseY)) ∧
    ((botEvasion s p).2.2 = false →
        ∀ c sc, botBestCollectible s p = some (c, sc) →
          (updateBot now s).mouseX = clampTargetX s c.x ∧
          (updateBot now s).mouseY = clampTargetY s c.y ∧
          (updateBot now s).mouseDown =
            decide (hypot2 (c.x - p.x) (c.y - p.y) > 200 ∧ s.energy > 30)) ∧
    (100 ≤ s.canvasWidth →
        50 ≤ (updateBot now s).mouseX ∧
        (updateBot now s).mouseX ≤ s.canvasWidth - 50) ∧
    (100 ≤ s.canvasHeight →
        50 ≤ (updateBot now s).mouseY ∧
        (updateBot now s).mouseY ≤ s.canvasHeight - 50) := by
  have hbf : ¬ (s.botEnabled = false) := by simp [hb]
  simp only [updateBot, if_neg hbf, hps]
  by_cases hE : (botEvasion s p).2.2 = true
  · by_cases hD : hypot2 (botEvasion s p).1 (botEvasion s p).2.1 > 0
    · simp only [hE, if_true, if_pos hD]
      refine ⟨fun _ => ⟨by simp, fun _ => ⟨by simp [clampTargetX], by simp [clampTargetY]⟩,
        fun hn => absurd hD hn⟩, fun hf => absurd hf (by simp), ?_, ?_⟩
      · intro hw
        simp only [clampTargetX]
        exact clamp_bounds 50 (s.canvasWidth - 50) _ (by linarith)
      · intro hh
        simp only [clampTargetY]
        exact clamp_bounds 50 (s.canvasHeight - 50) _ (by linarith)
    · simp only [hE, if_true, if_neg hD]
      refine ⟨fun _ => ⟨by simp, fun hq => absurd hq hD,
        fun _ => ⟨by simp [clampTargetX], by simp [clampTargetY]⟩⟩,
        fun hf => absurd hf (by simp), ?_, ?_⟩
      · intro hw
        simp only [clampTargetX]
        exact clamp_bounds 50 (s.canvasWidth - 50) _ (by linarith)
      · intro hh
        simp only [clampTargetY]
        exact clamp_bounds 50 (s.canvasHeight - 50) _ (by linarith)
  · have hEf : (botEvasion s p).2.2 = false := by
      rcases h : (botEvasion s p).2.2 with _ | _
      · rfl
      · exact absurd h hE
    rcases hbest : botBestCollectible s p with _ | bc
    · simp only [hEf, Bool.false_eq_true, if_false, hbest]
      refine ⟨fun ht => absurd ht (by simp [hEf]), ?_, ?_, ?_⟩
      · intro _ c sc hcs
        exact absurd hcs (by simp)
      · intro hw
        simp only [clampTargetX]
        exact clamp_bounds 50 (s.canvasWidth - 50) _ (by linarith)
      · intro hh
        simp only [clampTargetY]
        exact clamp_bounds 50 (s.canvasHeight - 50) _ (by linarith)
    · simp only [hEf, Bool.false_eq_true, if_false, hbest]
      refine ⟨fun ht => absurd ht (by simp [hEf]), ?_, ?_, ?_⟩
      · intro _ c sc hcs
        simp only [Option.some.injEq] at hcs
        subst hcs
        exact ⟨by simp [clampTargetX], by simp [clampTargetY], by simp⟩
      · intro hw
        simp only [clampTargetX]
        exact clamp_bounds 50 (s.canvasWidth - 50) _ (by linarith)
      · intro hh
        simp only [clampTargetY]
        exact clamp_bounds 50 (s.canvasHeight - 50) _ (by linarith)

/-- Witness for C7's amended statement at a concrete pilot-enabled
state: the target produced there respects the 50-unit clamp. -/
theorem pilot_decision_amended_witness :
    c7State.botEnabled = true ∧ c7State.player = some samplePlayer ∧
    100 ≤ c7State.canvasWidth ∧
    50 ≤ (updateBot 0 c7State).mouseX ∧
    (updateBot 0 c7State).mouseX ≤ c7State.canvasWidth - 50 := by
  have hw : (100:ℝ) ≤ c7State.canvasWidth := by norm_num [c7State, baseState]
  obtain ⟨h1, h2⟩ :=
    (pilot_decision_amended 0 c7State samplePlayer rfl rfl).2.2.1 hw
  exact ⟨rfl, rfl, hw, h1, h2⟩

end

end CosmicDrift
